import Mathlib

/-!
Shallow embedding of the EDLA log ingestion and aggregation engine
(`log_monitor.py`, `current_session_tracker.py`, `session_manager.py`).

Modelling conventions, fixed once for the whole development:
* JSON values are the inductive `JVal`; a decoded JSON object is an
  association list `RawData` (Python dicts preserve insertion order and
  have unique keys; the events built here always have unique keys).
* Python numbers are modelled as `Int` (floats such as `JumpDist` and
  `light_years_traveled` are also `Int`: no claim depends on fractional
  values, only on zero/reset and summation structure).
* Python `None` becomes `Option.none`; `d.get(k)` returning `None` both
  for a missing key and for a stored JSON `null` is mirrored by the
  getters below, which treat `jnull` like an absent key.
* String-valued journal fields (`Commander`, `Ship`, `StarSystem`,
  `StationName`, `event`, `timestamp`) are modelled as strings-or-absent.
* A Python exception escaping a function is modelled with `Except`.
-/

inductive JVal : Type where
  | jnull : JVal
  | jbool : Bool → JVal
  | jnum : Int → JVal
  | jstr : String → JVal
  | jarr : List JVal → JVal
  | jobj : List (String × JVal) → JVal
deriving Repr

/-- A decoded JSON object: ordered association list with unique keys. -/
abbrev RawData := List (String × JVal)

/-- `d.get(k)` key lookup on an ordered association list (first matching key). -/
def alookup {α : Type} (m : List (String × α)) (k : String) : Option α :=
  (m.find? (fun p => p.1 = k)).map Prod.snd

/-- `d.get(k)` key lookup on a decoded JSON object. -/
def jget (m : RawData) (k : String) : Option JVal :=
  alookup m k

/-- `k in d` membership test on a Python dict. -/
def hasKey (m : RawData) (k : String) : Bool :=
  m.any (fun p => p.1 = k)

/-- `d.get(k, default)` for an integer-valued field. -/
def getIntD (m : RawData) (k : String) (d : Int) : Int :=
  match jget m k with
  | some (JVal.jnum n) => n
  | _ => d

/-- `d.get(k)` for an integer-valued field (`None` for absent or null). -/
def getInt? (m : RawData) (k : String) : Option Int :=
  match jget m k with
  | some (JVal.jnum n) => some n
  | _ => none

/-- `d.get(k)` for a string-valued field (`None` for absent or null). -/
def getStr? (m : RawData) (k : String) : Option String :=
  match jget m k with
  | some (JVal.jstr s) => some s
  | _ => none

/-- `d.get(k, default)` for a string-valued field. -/
def getStrD (m : RawData) (k : String) (d : String) : String :=
  match jget m k with
  | some (JVal.jstr s) => s
  | _ => d

/-- `d.get(k, fallback)` where the fallback is an optional current value. -/
def getIntOr (m : RawData) (k : String) (fb : Option Int) : Option Int :=
  if hasKey m k then getInt? m k else fb

/-- `d.get(k, fallback)` for string fields with an optional fallback. -/
def getStrOr (m : RawData) (k : String) (fb : Option String) : Option String :=
  if hasKey m k then getStr? m k else fb

/-- Python dict upsert `m[k] = v`: replace in place if present, else append. -/
def upsert {α : Type} (m : List (String × α)) (k : String) (v : α) : List (String × α) :=
  if m.any (fun p => p.1 = k) then
    m.map (fun p => if p.1 = k then (k, v) else p)
  else
    m ++ [(k, v)]

/-! ## EventRecord decoder (`log_monitor.py`, `parse_log_line`) -/

/-- The `event_data` dict built by `parse_log_line` (the `commander` entry is
produced by the decoder but never read back by the aggregators). -/
structure EventData where
  event : String
  timestamp : String
  raw_data : RawData
  log_file : String
  commander : Option String := none
deriving Repr

/-- `extract_commander_from_event`: only `LoadGame` events carry a commander. -/
def extract_commander_from_event (data : RawData) : Option String :=
  if getStrD data "event" "" = "LoadGame" then getStr? data "Commander" else none

/-- `parse_log_line line log_file jsonResult`: the line's text together with the
outcome of `json.loads(line)` (`none` models a `JSONDecodeError`).  The result
is `Except`: `.error` models the uncaught `AttributeError` raised by
`data.get(...)` when the parsed JSON value is not an object. -/
def parse_log_line (line : String) (log_file : String) (jsonResult : Option JVal) :
    Except String (Option EventData) :=
  if line = "" then Except.ok none
  else
    match jsonResult with
    | none => Except.ok none
    | some (JVal.jobj data) =>
        Except.ok (some
          { event := getStrD data "event" "Unknown"
            timestamp := getStrD data "timestamp" ""
            raw_data := data
            log_file := log_file
            commander := extract_commander_from_event data })
    | some _ => Except.error "AttributeError"

/-! ## Tailing Reader (`log_monitor.py`, `EliteDangerousLogHandler.process_log_file`)

The file content is a `List Char`; the per-file cursor is a byte offset.
A poll seeks to the stored offset, reads everything after it, splits it
into lines (Python `readlines`, which also returns a trailing partial
line), and stores the end-of-file position as the new offset. -/

/-- Split a character stream into lines at newline characters; a trailing
segment with no final newline is still returned as a line (as Python
`readlines` does); an empty trailing segment is not. `cur` is the reversed
accumulator of the current line. -/
def splitLinesAux (cur : List Char) : List Char → List (List Char)
  | [] => if cur.isEmpty then [] else [cur.reverse]
  | c :: rest =>
      if c = '\n' then cur.reverse :: splitLinesAux [] rest
      else splitLinesAux (c :: cur) rest

def splitLines (s : List Char) : List (List Char) :=
  splitLinesAux [] s

/-- One poll of a file whose full content is `content`, with stored offset
`off`: yields the lines of the newly appended region and the new offset
(the file's length). -/
def pollFile (content : List Char) (off : Nat) : List (List Char) × Nat :=
  (splitLines (content.drop off), content.length)

/-- Run successive polls: starting from stored state `(content, off)` where
`off = content.length` after the previous poll, each element of `chunks`
is appended to the file and then polled.  Returns the concatenation of all
yielded lines. -/
def pollAll (content : List Char) (off : Nat) : List (List Char) → List (List Char)
  | [] => []
  | chunk :: rest =>
      let content' := content ++ chunk
      let out := pollFile content' off
      out.1 ++ pollAll content' out.2 rest

/-! ## Live Aggregator (`current_session_tracker.py`, `CurrentSessionTracker`) -/

/-- `_reputation_text_to_value`: the fixed six-entry lookup table. -/
def reputation_text_to_value (text : String) : Option Int :=
  if text = "" then none
  else
    let t := text.trim.toLower
    if t = "hostile" then some 0
    else if t = "unfriendly" then some 25
    else if t = "neutral" then some 50
    else if t = "cordial" then some 60
    else if t = "friendly" then some 75
    else if t = "allied" then some 100
    else none

/-- One entry of `active_missions` (the dict `m` built in `MissionAccepted`;
`MissionID` values are modelled as integers, `None` when absent or null). -/
structure Mission where
  missionID : Option Int
  name : String
  faction : String
  expiry : String
  destinationSystem : String
  destinationStation : String
deriving DecidableEq, Repr

/-- One parsed entry of a `MissionCompleted` event's `FactionEffects` list
(the journal carries these as strings). -/
structure FactionEffect where
  faction : String
  reputationTrend : String
  reputation : String
  influence : List String
deriving DecidableEq, Repr

/-- One parsed entry of a `MissionCompleted` event's `MaterialsReward` list. -/
structure MaterialRec where
  name : String
  category : String
  count : Int
deriving DecidableEq, Repr

/-- One entry of `completed_missions`. -/
structure CompletedMission where
  name : String
  faction : String
  reward : Int
  factionEffects : List FactionEffect
  materialsReward : List MaterialRec
deriving DecidableEq, Repr

/-- One entry of `failed_missions`. -/
structure FailedMission where
  name : String
  faction : String
deriving DecidableEq, Repr

/-- `raw_data.get(k) or []` for a list-valued field. -/
def getArrD (m : RawData) (k : String) : List JVal :=
  match jget m k with
  | some (JVal.jarr xs) => xs
  | _ => []

/-- The inner `Influence` loop of the `MissionCompleted` handler:
`f"{inv} {trend}".strip() or trend` for each dict entry with a truthy
`Influence` or `Trend`. -/
def parseInfluenceList (infs : List JVal) : List String :=
  infs.foldl (fun acc inf =>
    match inf with
    | JVal.jobj io =>
        let trend := getStrD io "Trend" ""
        let inv := getStrD io "Influence" ""
        if inv ≠ "" ∨ trend ≠ "" then
          let joined := (inv ++ " " ++ trend).trim
          acc ++ [if joined = "" then trend else joined]
        else acc
    | _ => acc) []

/-- The `FactionEffects` parsing loop of the `MissionCompleted` handler. -/
def parseFactionEffects (raw : RawData) : List FactionEffect :=
  (getArrD raw "FactionEffects").foldl (fun acc fe =>
    match fe with
    | JVal.jobj feo =>
        acc ++ [{ faction := getStrD feo "Faction" ""
                  reputationTrend := getStrD feo "ReputationTrend" ""
                  reputation := getStrD feo "Reputation" ""
                  influence := parseInfluenceList (getArrD feo "Influence") }]
    | _ => acc) []

/-- The `MaterialsReward` parsing loop of the `MissionCompleted` handler;
`mat.get("Name_Localised") or mat.get("Name", "")` is Python `or`
(falls through on `None` and on the empty string). -/
def parseMaterialsReward (raw : RawData) : List MaterialRec :=
  (getArrD raw "MaterialsReward").foldl (fun acc mat =>
    match mat with
    | JVal.jobj mo =>
        let matName :=
          match getStr? mo "Name_Localised" with
          | some s => if s = "" then getStrD mo "Name" "" else s
          | none => getStrD mo "Name" ""
        let matCat :=
          match getStr? mo "Category_Localised" with
          | some s => if s = "" then getStrD mo "Category" "" else s
          | none => getStrD mo "Category" ""
        acc ++ [{ name := matName, category := matCat, count := getIntD mo "Count" 0 }]
    | _ => acc) []

/-- `_empty_startup_snapshot()`: the five category sub-maps. -/
structure StartupSnapshot where
  load_game : RawData
  ranks : RawData
  progress : RawData
  powerplay : RawData
  reputation : RawData
deriving Repr

def emptyStartupSnapshot : StartupSnapshot :=
  { load_game := [], ranks := [], progress := [], powerplay := [], reputation := [] }

/-- The eight known category fields of `Rank` / `Progress` events. -/
def rankCategories : List String :=
  ["Combat", "Trade", "Explore", "Empire", "Federation", "CQC", "Mercenary", "Exobiologist"]

/-- The `Rank`/`Progress` merge loop: `v = raw_data.get(k); if v is not None:
snapshot[k] = v` for each known category (a stored JSON null also reads back
as `None`, so it is skipped too). -/
def mergeRankKeys (snap : RawData) (raw : RawData) : RawData :=
  rankCategories.foldl (fun snap k =>
    match jget raw k with
    | some JVal.jnull => snap
    | some v => upsert snap k v
    | none => snap) snap

/-- Python `set.add` on a set modelled as a duplicate-free list. -/
def setInsert (s : List String) (x : String) : List String :=
  if x ∈ s then s else s ++ [x]

/-- The `Factions`-list branch of the `Reputation` handler. -/
def repFromFactions (rep : List (String × Int)) (factions : List JVal) :
    List (String × Int) :=
  factions.foldl (fun rep entry =>
    match entry with
    | JVal.jobj eo =>
        match getStr? eo "Name" with
        | some name =>
            (match jget eo "Reputation" with
             | some (JVal.jnum n) => upsert rep name n
             | some (JVal.jstr t) =>
                 (match reputation_text_to_value t with
                  | some v => upsert rep name v
                  | none => rep)
             | _ => rep)
        | none => rep
    | _ => rep) rep

/-- The flat-keys branch of the `Reputation` handler: every top-level field
other than `event` / `timestamp` / `Factions` is treated as a faction:value
pair. -/
def repFromFlat (rep : List (String × Int)) (raw : RawData) : List (String × Int) :=
  raw.foldl (fun rep kv =>
    if kv.1 = "event" ∨ kv.1 = "timestamp" ∨ kv.1 = "Factions" then rep
    else
      match kv.2 with
      | JVal.jnum n => upsert rep kv.1 n
      | JVal.jstr t =>
          (match reputation_text_to_value t with
           | some v => upsert rep kv.1 v
           | none => rep)
      | _ => rep) rep

/-- The full mutable state of `CurrentSessionTracker`; the field defaults are
exactly the assignments of `reset()`. -/
structure LiveState where
  start_time : Option String := none
  commander : Option String := none
  current_log_file : Option String := none
  start_credits : Option Int := none
  current_credits : Option Int := none
  money_earned : Int := 0
  money_spent : Int := 0
  light_years_traveled : Int := 0
  jumps : Nat := 0
  systems_visited : List String := []
  stations_visited : List String := []
  planets_landed : Nat := 0
  kills : Nat := 0
  deaths : Nat := 0
  bounties_earned : Int := 0
  combat_bonds : Int := 0
  scans : Nat := 0
  fss_scans : Nat := 0
  dss_scans : Nat := 0
  exploration_value : Int := 0
  trade_profit : Int := 0
  missions_completed : Nat := 0
  mission_rewards : Int := 0
  active_missions : List Mission := []
  completed_missions : List CompletedMission := []
  failed_missions : List FailedMission := []
  reputation : List (String × Int) := []
  startup_snapshot : StartupSnapshot := emptyStartupSnapshot
  first_ship : Option String := none
  current_ship : Option String := none
  first_system : Option String := none
  current_system : Option String := none

/-- `reset()`: the freshly-reset state. -/
def resetState : LiveState := {}

/-- The `LoadGame` block at the top of `process_event`: new-session detection
(`commander and (not self.commander or log_file != self.current_log_file)`),
with the same-commander update pulse in the `elif`. -/
def applyLoadGame (s : LiveState) (e : EventData) : LiveState :=
  if e.event = "LoadGame" then
    let commander := getStr? e.raw_data "Commander"
    if commander.getD "" ≠ "" ∧
        (s.commander.getD "" = "" ∨ s.current_log_file ≠ some e.log_file) then
      { resetState with
          commander := commander
          current_log_file := some e.log_file
          start_time := some e.timestamp
          start_credits := some (getIntD e.raw_data "Credits" 0)
          current_credits := some (getIntD e.raw_data "Credits" 0)
          first_ship := getStr? e.raw_data "Ship"
          current_ship := getStr? e.raw_data "Ship"
          first_system := getStr? e.raw_data "StarSystem"
          current_system := getStr? e.raw_data "StarSystem" }
    else if commander = s.commander then
      { s with
          current_credits := getIntOr e.raw_data "Credits" s.current_credits
          current_ship := getStrOr e.raw_data "Ship" s.current_ship
          current_system := getStrOr e.raw_data "StarSystem" s.current_system }
    else s
  else s

/-- The `"Credits" in raw_data` block of `process_event`: signed delta against
the current credits; the current value is updated even when it was `None`. -/
def applyCredits (s : LiveState) (e : EventData) : LiveState :=
  if hasKey e.raw_data "Credits" then
    let new_credits := getIntD e.raw_data "Credits" 0
    let s :=
      match s.current_credits with
      | some cur =>
          let change := new_credits - cur
          if change > 0 then { s with money_earned := s.money_earned + change }
          else { s with money_spent := s.money_spent + |change| }
      | none => s
    { s with current_credits := some new_credits }
  else s

/-- The `FSDJump` row of `process_event`. -/
def liveFSDJump (s : LiveState) (raw : RawData) : LiveState :=
  let s := { s with jumps := s.jumps + 1 }
  let jump_dist := getIntD raw "JumpDist" 0
  let s :=
    if jump_dist ≠ 0 then
      { s with light_years_traveled := s.light_years_traveled + jump_dist }
    else s
  match getStr? raw "StarSystem" with
  | some system =>
      if system ≠ "" then
        { s with current_system := some system
                 systems_visited := setInsert s.systems_visited system }
      else s
  | none => s

/-- The `Location` row of `process_event`. -/
def liveLocation (s : LiveState) (raw : RawData) : LiveState :=
  match getStr? raw "StarSystem" with
  | some system =>
      if system ≠ "" then
        { s with current_system := some system
                 systems_visited := setInsert s.systems_visited system }
      else s
  | none => s

/-- The `Docked` row of `process_event`. -/
def liveDocked (s : LiveState) (raw : RawData) : LiveState :=
  match getStr? raw "StationName" with
  | some station =>
      if station ≠ "" then
        { s with stations_visited := setInsert s.stations_visited station }
      else s
  | none => s

/-- The `Bounty` row of `process_event`: a truthy `TotalReward` adds to the
bounty total and counts a kill. -/
def liveBounty (s : LiveState) (raw : RawData) : LiveState :=
  let reward := getIntD raw "TotalReward" 0
  if reward ≠ 0 then
    { s with bounties_earned := s.bounties_earned + reward, kills := s.kills + 1 }
  else s

/-- The `FactionKillBond` row of `process_event`. -/
def liveKillBond (s : LiveState) (raw : RawData) : LiveState :=
  let reward := getIntD raw "Reward" 0
  if reward ≠ 0 then
    { s with combat_bonds := s.combat_bonds + reward, kills := s.kills + 1 }
  else s

/-- The `SellExplorationData` row of `process_event`. -/
def liveSellExploration (s : LiveState) (raw : RawData) : LiveState :=
  let value := getIntD raw "TotalEarnings" 0
  if value ≠ 0 then { s with exploration_value := s.exploration_value + value } else s

/-- The `MarketSell` row of `process_event`: only positive profit accumulates. -/
def liveMarketSell (s : LiveState) (raw : RawData) : LiveState :=
  let profit := getIntD raw "TotalSale" 0 - getIntD raw "AvgPricePaid" 0 * getIntD raw "Count" 0
  if profit > 0 then { s with trade_profit := s.trade_profit + profit } else s

/-- The `MissionAccepted` row of `process_event`: dedup by id (when present),
then append. -/
def liveMissionAccepted (s : LiveState) (raw : RawData) : LiveState :=
  let mission_id := getInt? raw "MissionID"
  let m : Mission :=
    { missionID := mission_id
      name := getStrD raw "Name" ""
      faction := getStrD raw "Faction" ""
      expiry := getStrD raw "Expiry" ""
      destinationSystem := getStrD raw "DestinationSystem" ""
      destinationStation := getStrD raw "DestinationStation" "" }
  let active :=
    match mission_id with
    | some _ => s.active_missions.filter (fun x => x.missionID ≠ mission_id)
    | none => s.active_missions
  { s with active_missions := active ++ [m] }

/-- The `MissionCompleted` row of `process_event`. -/
def liveMissionCompleted (s : LiveState) (raw : RawData) : LiveState :=
  let s := { s with missions_completed := s.missions_completed + 1 }
  let reward := getIntD raw "Reward" 0
  let s := if reward ≠ 0 then { s with mission_rewards := s.mission_rewards + reward } else s
  let mission_id := getInt? raw "MissionID"
  let s := { s with
    active_missions := s.active_missions.filter (fun x => x.missionID ≠ mission_id) }
  { s with completed_missions := s.completed_missions ++
      [{ name := getStrD raw "Name" ""
         faction := getStrD raw "Faction" ""
         reward := reward
         factionEffects := parseFactionEffects raw
         materialsReward := parseMaterialsReward raw }] }

/-- The `MissionFailed` row of `process_event`. -/
def liveMissionFailed (s : LiveState) (raw : RawData) : LiveState :=
  let mission_id := getInt? raw "MissionID"
  { s with
      active_missions := s.active_missions.filter (fun x => x.missionID ≠ mission_id)
      failed_missions := s.failed_missions ++
        [{ name := getStrD raw "Name" "", faction := getStrD raw "Faction" "" }] }

/-- The `MissionAbandoned` row of `process_event`. -/
def liveMissionAbandoned (s : LiveState) (raw : RawData) : LiveState :=
  let mission_id := getInt? raw "MissionID"
  { s with active_missions := s.active_missions.filter (fun x => x.missionID ≠ mission_id) }

/-- The `Rank` row of `process_event`. -/
def liveRank (s : LiveState) (raw : RawData) : LiveState :=
  { s with startup_snapshot :=
      { s.startup_snapshot with ranks := mergeRankKeys s.startup_snapshot.ranks raw } }

/-- The `Progress` row of `process_event`. -/
def liveProgress (s : LiveState) (raw : RawData) : LiveState :=
  { s with startup_snapshot :=
      { s.startup_snapshot with progress := mergeRankKeys s.startup_snapshot.progress raw } }

/-- The `Powerplay` row of `process_event`: wholesale replacement of the
powerplay sub-map with the five known fields. -/
def livePowerplay (s : LiveState) (raw : RawData) : LiveState :=
  { s with startup_snapshot :=
      { s.startup_snapshot with powerplay :=
          [("Power", (jget raw "Power").getD JVal.jnull),
           ("Rank", (jget raw "Rank").getD JVal.jnull),
           ("Merits", (jget raw "Merits").getD JVal.jnull),
           ("Votes", (jget raw "Votes").getD JVal.jnull),
           ("TimePledged", (jget raw "TimePledged").getD JVal.jnull)] } }

/-- The `Reputation` row of `process_event`: `Factions` list when present and a
list, else the flat-keys form. -/
def liveReputation (s : LiveState) (raw : RawData) : LiveState :=
  match jget raw "Factions" with
  | some (JVal.jarr factions) => { s with reputation := repFromFactions s.reputation factions }
  | _ => { s with reputation := repFromFlat s.reputation raw }

/-- The long `if event_type == ... elif ...` chain of `process_event`, one
helper per row (single-counter rows are inlined). -/
def applyEventChain (s : LiveState) (e : EventData) : LiveState :=
  match e.event with
  | "FSDJump" => liveFSDJump s e.raw_data
  | "Location" => liveLocation s e.raw_data
  | "Docked" => liveDocked s e.raw_data
  | "Touchdown" => { s with planets_landed := s.planets_landed + 1 }
  | "Bounty" => liveBounty s e.raw_data
  | "FactionKillBond" => liveKillBond s e.raw_data
  | "Died" => { s with deaths := s.deaths + 1 }
  | "Scan" => { s with scans := s.scans + 1 }
  | "FSSBodySignals" => { s with fss_scans := s.fss_scans + 1 }
  | "SAAScanComplete" => { s with dss_scans := s.dss_scans + 1 }
  | "SellExplorationData" => liveSellExploration s e.raw_data
  | "MarketSell" => liveMarketSell s e.raw_data
  | "MissionAccepted" => liveMissionAccepted s e.raw_data
  | "MissionCompleted" => liveMissionCompleted s e.raw_data
  | "MissionFailed" => liveMissionFailed s e.raw_data
  | "MissionAbandoned" => liveMissionAbandoned s e.raw_data
  | "Rank" => liveRank s e.raw_data
  | "Progress" => liveProgress s e.raw_data
  | "Powerplay" => livePowerplay s e.raw_data
  | "Reputation" => liveReputation s e.raw_data
  | _ => s

/-- The trailing `if "Ship" in raw_data` block of `process_event`. -/
def applyShip (s : LiveState) (e : EventData) : LiveState :=
  if hasKey e.raw_data "Ship" then { s with current_ship := getStr? e.raw_data "Ship" } else s

/-- `CurrentSessionTracker.process_event`: LoadGame session detection, then the
`if not self.commander: return` guard, then credits delta, the event chain and
the trailing ship update, in source order. -/
def processEvent (s : LiveState) (e : EventData) : LiveState :=
  let s := applyLoadGame s e
  if s.commander.getD "" = "" then s
  else applyShip (applyEventChain (applyCredits s e) e) e

/-- Feed a whole event stream to the tracker in order. -/
def processEvents (s : LiveState) (es : List EventData) : LiveState :=
  es.foldl processEvent s

/-! ## Archival Aggregator (`session_manager.py`, `SessionManager.process_log_file`) -/

/-- One retained raw-event sample entry (`{"event": ..., "timestamp": ..., "data": ...}`). -/
structure EventSample where
  event : String
  timestamp : String
  data : RawData

/-- The `session_data` dict of `process_log_file`; the defaults are exactly its
initialisation literal (sets are modelled as duplicate-free lists). -/
structure SessionData where
  session_id : String := ""
  log_file : String := ""
  start_time : Option String := none
  end_time : Option String := none
  commander : Option String := none
  events : List EventSample := []
  event_counts : List (String × Nat) := []
  first_ship : Option String := none
  last_ship : Option String := none
  first_system : Option String := none
  last_system : Option String := none
  first_credits : Option Int := none
  last_credits : Option Int := none
  credits_change : Int := 0
  jumps : Nat := 0
  light_years_traveled : Int := 0
  docked_count : Nat := 0
  undocked_count : Nat := 0
  planets_landed : Nat := 0
  total_events : Nat := 0
  bounties_earned : Int := 0
  bounty_count : Nat := 0
  combat_bonds : Int := 0
  died : Bool := false
  kills : Nat := 0
  deaths : Nat := 0
  scans : Nat := 0
  fss_scans : Nat := 0
  dss_scans : Nat := 0
  codex_entries : Nat := 0
  exploration_value : Int := 0
  market_buys : Nat := 0
  market_sells : Nat := 0
  trade_profit : Int := 0
  missions_accepted : Nat := 0
  missions_completed : Nat := 0
  missions_failed : Nat := 0
  mission_rewards : Int := 0
  systems_visited : List String := []
  stations_visited : List String := []
  unique_ships : List String := []
  start_ranks : List (String × Int) := []
  end_ranks : List (String × Int) := []
  events_summary : Option String := none

/-- The initial `session_data` for a file (`start_time` is the result of
`parse_timestamp_from_filename(...).isoformat()`, passed in by the caller). -/
def initSessionData (session_id log_file : String) (start_time : Option String) :
    SessionData :=
  { session_id := session_id, log_file := log_file, start_time := start_time }

/-- `event_counts[t] = event_counts.get(t, 0) + 1`. -/
def countUp (m : List (String × Nat)) (k : String) : List (String × Nat) :=
  let cur := match alookup m k with | some n => n | none => 0
  upsert m k (cur + 1)

/-- Python `sub in s` substring test (no occurrence leaves `splitOn` with a
single piece). -/
def strContains (s sub : String) : Bool :=
  (s.splitOn sub).length ≥ 2

/-- The five sequential `start_ranks` writes of the `LoadGame` branch of
`process_log_file` (`if "Rank" in data: start_ranks["combat"] = ...`, etc.). -/
def archStartRanks (sr : List (String × Int)) (data : RawData) : List (String × Int) :=
  let sr := if hasKey data "Rank" then upsert sr "combat" (getIntD data "Rank" 0) else sr
  let sr := if hasKey data "TradeRank" then upsert sr "trade" (getIntD data "TradeRank" 0) else sr
  let sr := if hasKey data "ExploreRank" then upsert sr "exploration" (getIntD data "ExploreRank" 0) else sr
  let sr := if hasKey data "EmpireRank" then upsert sr "empire" (getIntD data "EmpireRank" 0) else sr
  if hasKey data "FederationRank" then upsert sr "federation" (getIntD data "FederationRank" 0) else sr

/-- The `LoadGame` branch of `process_log_file`'s chain: first-seen identity
fields (each source `if` reads only the field it sets, so the sequential
assignments are one simultaneous record update) and starting ranks. -/
def archLoadGame (sd : SessionData) (data : RawData) : SessionData :=
  { sd with
      commander := if sd.commander.getD "" = "" then getStr? data "Commander" else sd.commander
      first_ship := if sd.first_ship.getD "" = "" then getStr? data "Ship" else sd.first_ship
      first_system := if sd.first_system.getD "" = "" then getStr? data "StarSystem" else sd.first_system
      first_credits := if sd.first_credits = none then some (getIntD data "Credits" 0) else sd.first_credits
      start_ranks := archStartRanks sd.start_ranks data }

/-- The `FSDJump` branch of `process_log_file`'s chain. -/
def archFSDJump (sd : SessionData) (data : RawData) : SessionData :=
  let sd := { sd with jumps := sd.jumps + 1 }
  let jump_dist := getIntD data "JumpDist" 0
  let sd := if jump_dist ≠ 0 then { sd with light_years_traveled := sd.light_years_traveled + jump_dist } else sd
  match getStr? data "StarSystem" with
  | some system =>
      if system ≠ "" then
        { sd with last_system := some system
                  systems_visited := setInsert sd.systems_visited system }
      else sd
  | none => sd

/-- The `Location` branch of `process_log_file`'s chain (only fills
`last_system` when it is still unset). -/
def archLocation (sd : SessionData) (data : RawData) : SessionData :=
  match getStr? data "StarSystem" with
  | some system =>
      if system ≠ "" then
        let sd := if sd.last_system.getD "" = "" then { sd with last_system := some system } else sd
        { sd with systems_visited := setInsert sd.systems_visited system }
      else sd
  | none => sd

/-- The `Docked` branch of `process_log_file`'s chain. -/
def archDocked (sd : SessionData) (data : RawData) : SessionData :=
  let sd := { sd with docked_count := sd.docked_count + 1 }
  match getStr? data "StationName" with
  | some station =>
      if station ≠ "" then { sd with stations_visited := setInsert sd.stations_visited station } else sd
  | none => sd

/-- The `Bounty` branch of `process_log_file`'s chain: a truthy `TotalReward`
adds to the bounty total and increments `bounty_count` (never `kills`). -/
def archBounty (sd : SessionData) (data : RawData) : SessionData :=
  let reward := getIntD data "TotalReward" 0
  if reward ≠ 0 then
    { sd with bounties_earned := sd.bounties_earned + reward
              bounty_count := sd.bounty_count + 1 }
  else sd

/-- The `FactionKillBond` branch of `process_log_file`'s chain (only
`combat_bonds`, never `kills`). -/
def archKillBond (sd : SessionData) (data : RawData) : SessionData :=
  let reward := getIntD data "Reward" 0
  if reward ≠ 0 then { sd with combat_bonds := sd.combat_bonds + reward } else sd

/-- The `SellExplorationData` branch of `process_log_file`'s chain. -/
def archSellExploration (sd : SessionData) (data : RawData) : SessionData :=
  let value := getIntD data "TotalEarnings" 0
  if value ≠ 0 then { sd with exploration_value := sd.exploration_value + value } else sd

/-- The `MarketSell` branch of `process_log_file`'s chain. -/
def archMarketSell (sd : SessionData) (data : RawData) : SessionData :=
  let sd := { sd with market_sells := sd.market_sells + 1 }
  let profit := getIntD data "TotalSale" 0 - getIntD data "AvgPricePaid" 0 * getIntD data "Count" 0
  if profit > 0 then { sd with trade_profit := sd.trade_profit + profit } else sd

/-- The `MissionCompleted` branch of `process_log_file`'s chain. -/
def archMissionCompleted (sd : SessionData) (data : RawData) : SessionData :=
  let sd := { sd with missions_completed := sd.missions_completed + 1 }
  let reward := getIntD data "Reward" 0
  if reward ≠ 0 then { sd with mission_rewards := sd.mission_rewards + reward } else sd

/-- The `Promotion` branch of `process_log_file`'s chain: substring dispatch on
the `Rank` field. -/
def archPromotion (sd : SessionData) (data : RawData) : SessionData :=
  match getStr? data "Rank" with
  | some rank_type =>
      if rank_type ≠ "" then
        if strContains rank_type "Combat" then
          { sd with end_ranks := upsert sd.end_ranks "combat" (getIntD data "NewRank" 0) }
        else if strContains rank_type "Trade" then
          { sd with end_ranks := upsert sd.end_ranks "trade" (getIntD data "NewRank" 0) }
        else if strContains rank_type "Exploration" then
          { sd with end_ranks := upsert sd.end_ranks "exploration" (getIntD data "NewRank" 0) }
        else sd
      else sd
  | none => sd

/-- The `elif event_type == ...` chain of `process_log_file` for one decoded
line `data`, one helper per branch (single-counter branches are inlined;
`ShipTargeted` is the source's `pass`). -/
def archChain (sd : SessionData) (data : RawData) (event_type : String) : SessionData :=
  match event_type with
  | "LoadGame" => archLoadGame sd data
  | "FSDJump" => archFSDJump sd data
  | "Location" => archLocation sd data
  | "Docked" => archDocked sd data
  | "Undocked" => { sd with undocked_count := sd.undocked_count + 1 }
  | "Touchdown" => { sd with planets_landed := sd.planets_landed + 1 }
  | "Bounty" => archBounty sd data
  | "FactionKillBond" => archKillBond sd data
  | "Died" => { sd with died := true, deaths := sd.deaths + 1 }
  | "ShipTargeted" => sd
  | "Scan" => { sd with scans := sd.scans + 1 }
  | "FSSBodySignals" => { sd with fss_scans := sd.fss_scans + 1 }
  | "SAAScanComplete" => { sd with dss_scans := sd.dss_scans + 1 }
  | "CodexEntry" => { sd with codex_entries := sd.codex_entries + 1 }
  | "SellExplorationData" => archSellExploration sd data
  | "MarketBuy" => { sd with market_buys := sd.market_buys + 1 }
  | "MarketSell" => archMarketSell sd data
  | "MissionAccepted" => { sd with missions_accepted := sd.missions_accepted + 1 }
  | "MissionCompleted" => archMissionCompleted sd data
  | "MissionFailed" => { sd with missions_failed := sd.missions_failed + 1 }
  | "Promotion" => archPromotion sd data
  | _ => sd

/-- Folding one decoded line into `(session_data, last_timestamp)`: the event
sample / total / count bookkeeping, the event chain, then the trailing `Ship`
and `Credits` blocks. -/
def foldArchEvent (acc : SessionData × Option String) (data : RawData) :
    SessionData × Option String :=
  let sd := acc.1
  let event_type := getStrD data "event" ""
  let timestamp := getStrD data "timestamp" ""
  let last_timestamp := if timestamp ≠ "" then some timestamp else acc.2
  let sd := { sd with
    events := sd.events ++ [{ event := event_type, timestamp := timestamp, data := data }]
    total_events := sd.total_events + 1
    event_counts := countUp sd.event_counts event_type }
  let sd := archChain sd data event_type
  let sd :=
    if hasKey data "Ship" then
      match getStr? data "Ship" with
      | some ship =>
          if ship ≠ "" then
            { sd with last_ship := some ship, unique_ships := setInsert sd.unique_ships ship }
          else sd
      | none => sd
    else sd
  let sd := if hasKey data "Credits" then { sd with last_credits := some (getIntD data "Credits" 0) } else sd
  (sd, last_timestamp)

/-- `SessionManager.process_log_file` over the decoded lines of the file:
each element of `lines` is the `json.loads` outcome of one non-blank stripped
line (`none` models a `JSONDecodeError`, which `continue`s).  After the loop:
end time, credits change, and the first-100/last-100 truncation. -/
def processLogFile (session_id log_file : String) (start_time : Option String)
    (lines : List (Option RawData)) : SessionData :=
  let init : SessionData × Option String := (initSessionData session_id log_file start_time, none)
  let acc := lines.foldl (fun acc line? =>
      match line? with
      | some data => foldArchEvent acc data
      | none => acc) init
  let sd := acc.1
  let sd : SessionData :=
    match acc.2 with | some ts => { sd with end_time := some ts } | none => sd
  let sd : SessionData :=
    match sd.first_credits, sd.last_credits with
    | some fc, some lc => { sd with credits_change := lc - fc }
    | _, _ => sd
  if sd.events.length > 200 then
    { sd with
        events := sd.events.take 100 ++ sd.events.drop (sd.events.length - 100)
        events_summary := some ("Total: " ++ toString sd.total_events ++
          " events (showing first 100 and last 100)") }
  else sd

/-! ## Session Store and Scan Orchestrator (`session_manager.py`, `scan_all_logs`)

The in-memory store is the pair `(sessions, processed_files)`.  A directory
listing is a sorted list of `(path, content)` pairs, where `content = none`
models a file `process_log_file` cannot open (it returns `None` there), and
the file name and its path string are identified.  The filename-timestamp
parser (`parse_timestamp_from_filename` + `isoformat`) is passed in as an
opaque `parseStart` function. -/

structure StoreState where
  sessions : List (String × SessionData)
  processed_files : List String

/-- The outcome of one `scan_all_logs` call: the final in-memory store, the
sequence of `progress_callback(current, total)` invocations, the number of
newly processed sessions, and whether the save (store write) ran. -/
structure ScanOutcome where
  state : StoreState
  calls : List (Nat × Nat)
  new_sessions : Nat
  saved : Bool

/-- The per-file loop of `scan_all_logs`.  `i` is the loop iteration (for the
`is_cancelled()` check), `count` is `processed_count`, `ns` is `new_sessions`.
In the skip branch the Python code increments and fires the callback, then
`continue`s — and `continue` out of a `try` body still runs the `finally`
block, which increments and fires the callback a second time. -/
def scanLoop (parseStart : String → Option String) (force useCallback : Bool)
    (cancel : Nat → Bool) (total : Nat) (st : StoreState) (i count ns : Nat) :
    List (String × Option (List (Option RawData))) →
      StoreState × List (Nat × Nat) × Nat
  | [] => (st, [], ns)
  | (path, content?) :: rest =>
      if cancel i then (st, [], ns)
      else if ¬force ∧ path ∈ st.processed_files then
        let (count1, calls1) :=
          if useCallback then (count + 1, [(count + 1, total)]) else (count, [])
        let count2 := count1 + 1
        let calls2 := calls1 ++ (if useCallback then [(count2, total)] else [])
        let r := scanLoop parseStart force useCallback cancel total st (i + 1) count2 ns rest
        (r.1, calls2 ++ r.2.1, r.2.2)
      else
        let (st', ns') :=
          match content? with
          | some lines =>
              ({ sessions := upsert st.sessions path (processLogFile path path (parseStart path) lines)
                 processed_files := setInsert st.processed_files path }, ns + 1)
          | none => (st, ns)
        let count2 := count + 1
        let calls2 := if useCallback then [(count2, total)] else []
        let r := scanLoop parseStart force useCallback cancel total st' (i + 1) count2 ns' rest
        (r.1, calls2 ++ r.2.1, r.2.2)

/-- `SessionManager.scan_all_logs` over a directory listing: runs the loop and
saves (writes the store) only when `new_sessions > 0`. -/
def scanAllLogs (parseStart : String → Option String) (st : StoreState)
    (files : List (String × Option (List (Option RawData))))
    (force_rescan useCallback : Bool) (cancel : Nat → Bool) : ScanOutcome :=
  let total := files.length
  let r := scanLoop parseStart force_rescan useCallback cancel total st 0 0 0 files
  { state := r.1, calls := r.2.1, new_sessions := r.2.2, saved := r.2.2 > 0 }

/-! ## Cross-session aggregation (`session_manager.py`, `get_session_statistics`) -/

/-- A value of the statistics dict: a number or an (optional) string. -/
inductive StatVal : Type where
  | num : Int → StatVal
  | str : Option String → StatVal
deriving DecidableEq, Repr

/-- `get_session_statistics` over the (already filtered and sorted, newest
first) session list: zero matching sessions return the literal all-zero dict
of the source; otherwise the full aggregate dict, keys in source order. -/
def getSessionStatistics (sessions : List SessionData) : List (String × StatVal) :=
  if sessions.isEmpty then
    [("total_sessions", StatVal.num 0),
     ("total_jumps", StatVal.num 0),
     ("total_light_years", StatVal.num 0),
     ("total_docked", StatVal.num 0),
     ("total_planets_landed", StatVal.num 0),
     ("total_events", StatVal.num 0),
     ("total_credits_change", StatVal.num 0),
     ("total_kills", StatVal.num 0),
     ("total_deaths", StatVal.num 0),
     ("total_bounties", StatVal.num 0),
     ("total_combat_bonds", StatVal.num 0),
     ("total_exploration_value", StatVal.num 0),
     ("total_trade_profit", StatVal.num 0),
     ("total_mission_rewards", StatVal.num 0),
     ("total_systems_visited", StatVal.num 0),
     ("total_stations_visited", StatVal.num 0),
     ("total_scans", StatVal.num 0),
     ("total_missions_completed", StatVal.num 0),
     ("deaths", StatVal.num 0)]
  else
    let all_systems := sessions.foldl (fun acc s => s.systems_visited.foldl setInsert acc) []
    let all_stations := sessions.foldl (fun acc s => s.stations_visited.foldl setInsert acc) []
    [("total_sessions", StatVal.num sessions.length),
     ("total_jumps", StatVal.num (sessions.map (fun s => (s.jumps : Int))).sum),
     ("total_light_years", StatVal.num (sessions.map (fun s => s.light_years_traveled)).sum),
     ("total_docked", StatVal.num (sessions.map (fun s => (s.docked_count : Int))).sum),
     ("total_planets_landed", StatVal.num (sessions.map (fun s => (s.planets_landed : Int))).sum),
     ("total_events", StatVal.num (sessions.map (fun s => (s.total_events : Int))).sum),
     ("total_kills", StatVal.num (sessions.map (fun s => (s.kills : Int))).sum),
     ("total_deaths", StatVal.num ((sessions.filter (fun s => s.died)).length : Int)),
     ("total_credits_change", StatVal.num (sessions.map (fun s => s.credits_change)).sum),
     ("total_bounties", StatVal.num (sessions.map (fun s => s.bounties_earned)).sum),
     ("total_combat_bonds", StatVal.num (sessions.map (fun s => s.combat_bonds)).sum),
     ("total_exploration_value", StatVal.num (sessions.map (fun s => s.exploration_value)).sum),
     ("total_trade_profit", StatVal.num (sessions.map (fun s => s.trade_profit)).sum),
     ("total_mission_rewards", StatVal.num (sessions.map (fun s => s.mission_rewards)).sum),
     ("total_systems_visited", StatVal.num (all_systems.length : Int)),
     ("total_stations_visited", StatVal.num (all_stations.length : Int)),
     ("total_scans", StatVal.num (sessions.map (fun s => (s.scans : Int))).sum),
     ("total_fss_scans", StatVal.num (sessions.map (fun s => (s.fss_scans : Int))).sum),
     ("total_dss_scans", StatVal.num (sessions.map (fun s => (s.dss_scans : Int))).sum),
     ("total_codex_entries", StatVal.num (sessions.map (fun s => (s.codex_entries : Int))).sum),
     ("total_missions_accepted", StatVal.num (sessions.map (fun s => (s.missions_accepted : Int))).sum),
     ("total_missions_completed", StatVal.num (sessions.map (fun s => (s.missions_completed : Int))).sum),
     ("total_missions_failed", StatVal.num (sessions.map (fun s => (s.missions_failed : Int))).sum),
     ("deaths", StatVal.num ((sessions.filter (fun s => s.died)).length : Int)),
     ("first_session", StatVal.str (sessions.getLast?.bind (fun s => s.start_time))),
     ("last_session", StatVal.str (sessions.head?.bind (fun s => s.start_time)))]

/-! ## Concrete journal inputs used by witnesses and counterexamples -/

/-- A `LoadGame` event as delivered by the decoder. -/
def lgEvent (cmdr file : String) (credits : Int) : EventData :=
  { event := "LoadGame", timestamp := "2024-01-01T00:00:00Z",
    raw_data := [("timestamp", JVal.jstr "2024-01-01T00:00:00Z"),
                 ("event", JVal.jstr "LoadGame"),
                 ("Commander", JVal.jstr cmdr), ("Credits", JVal.jnum credits),
                 ("Ship", JVal.jstr "Sidewinder"), ("StarSystem", JVal.jstr "Sol")],
    log_file := file, commander := some cmdr }

/-- A `Bounty` event with `TotalReward = 100`. -/
def bountyEvent : EventData :=
  { event := "Bounty", timestamp := "2024-01-01T00:01:00Z",
    raw_data := [("event", JVal.jstr "Bounty"), ("TotalReward", JVal.jnum 100)],
    log_file := "F1" }

/-- A `FactionKillBond` event with `Reward = 50`. -/
def bondEvent : EventData :=
  { event := "FactionKillBond", timestamp := "2024-01-01T00:01:30Z",
    raw_data := [("event", JVal.jstr "FactionKillBond"), ("Reward", JVal.jnum 50)],
    log_file := "F1" }

/-- An `FSDJump` event. -/
def jumpEvent : EventData :=
  { event := "FSDJump", timestamp := "2024-01-01T00:02:00Z",
    raw_data := [("event", JVal.jstr "FSDJump"), ("JumpDist", JVal.jnum 12),
                 ("StarSystem", JVal.jstr "Wolf 359")],
    log_file := "F1" }

/-- A `MissionAccepted` event, optionally carrying a `MissionID`. -/
def acceptEvent (id? : Option Int) : EventData :=
  { event := "MissionAccepted", timestamp := "2024-01-01T00:03:00Z",
    raw_data := [("event", JVal.jstr "MissionAccepted")] ++
      (match id? with | some i => [("MissionID", JVal.jnum i)] | none => []) ++
      [("Name", JVal.jstr "Mission_Delivery"), ("Faction", JVal.jstr "The Guild")],
    log_file := "F1" }

/-- A `MissionCompleted` event, optionally carrying a `MissionID`. -/
def completeEvent (id? : Option Int) : EventData :=
  { event := "MissionCompleted", timestamp := "2024-01-01T00:04:00Z",
    raw_data := [("event", JVal.jstr "MissionCompleted")] ++
      (match id? with | some i => [("MissionID", JVal.jnum i)] | none => []) ++
      [("Name", JVal.jstr "Mission_Delivery"), ("Faction", JVal.jstr "The Guild"),
       ("Reward", JVal.jnum 5000)],
    log_file := "F1" }

/-- A `MissionFailed` event with no `MissionID`. -/
def failEventNoId : EventData :=
  { event := "MissionFailed", timestamp := "2024-01-01T00:05:00Z",
    raw_data := [("event", JVal.jstr "MissionFailed"), ("Name", JVal.jstr "Mission_Delivery")],
    log_file := "F1" }

/-- A `MissionAbandoned` event with no `MissionID`. -/
def abandonEventNoId : EventData :=
  { event := "MissionAbandoned", timestamp := "2024-01-01T00:06:00Z",
    raw_data := [("event", JVal.jstr "MissionAbandoned")],
    log_file := "F1" }

/-- The decoded `LoadGame` line of a journal file, as raw JSON. -/
def lgObj : RawData :=
  [("timestamp", JVal.jstr "2024-01-01T00:00:00Z"), ("event", JVal.jstr "LoadGame"),
   ("Commander", JVal.jstr "A"), ("Credits", JVal.jnum 1000)]

/-- A decoded `Bounty` line with `TotalReward = 100`, as raw JSON. -/
def bountyObj : RawData :=
  [("timestamp", JVal.jstr "2024-01-01T00:01:00Z"), ("event", JVal.jstr "Bounty"),
   ("TotalReward", JVal.jnum 100)]

/-- A store that has already processed `J1.log` and nothing else. -/
def procStore : StoreState := { sessions := [], processed_files := ["J1.log"] }

/-! ## Helper lemmas about getters and the tracker phases -/

lemma jget_hasKey {m : RawData} {k : String} {v : JVal} (h : jget m k = some v) :
    hasKey m k = true := by
  unfold jget alookup at h
  unfold hasKey
  cases hf : m.find? (fun p => p.1 = k) with
  | none => rw [hf] at h; simp at h
  | some pr =>
      rw [List.any_eq_true]
      refine ⟨pr, List.mem_of_find?_eq_some hf, ?_⟩
      simpa using List.find?_some hf

lemma getIntD_eq {m : RawData} {k : String} {n : Int} (d : Int)
    (h : jget m k = some (JVal.jnum n)) : getIntD m k d = n := by
  unfold getIntD; rw [h]

lemma getInt?_eq {m : RawData} {k : String} {n : Int}
    (h : jget m k = some (JVal.jnum n)) : getInt? m k = some n := by
  unfold getInt?; rw [h]

lemma getStrD_default {m : RawData} {k : String} (d : String)
    (h : jget m k = none) : getStrD m k d = d := by
  unfold getStrD; rw [h]

/-- `applyCredits` only ever changes the two money counters and the current
credits. -/
lemma applyCredits_shape (s : LiveState) (e : EventData) :
    ∃ me ms cc, applyCredits s e =
      { s with money_earned := me, money_spent := ms, current_credits := cc } := by
  simp only [applyCredits]
  repeat' split
  · exact ⟨_, _, _, rfl⟩
  · exact ⟨_, _, _, rfl⟩
  · exact ⟨_, _, _, rfl⟩
  · exact ⟨_, _, _, rfl⟩

/-- `applyShip` only ever changes the current ship. -/
lemma applyShip_shape (s : LiveState) (e : EventData) :
    ∃ cs, applyShip s e = { s with current_ship := cs } := by
  simp only [applyShip]
  split
  · exact ⟨_, rfl⟩
  · exact ⟨_, rfl⟩

/-- `liveFSDJump` does not touch the money counters. -/
lemma liveFSDJump_money (s : LiveState) (raw : RawData) :
    (liveFSDJump s raw).money_earned = s.money_earned ∧
    (liveFSDJump s raw).money_spent = s.money_spent ∧
    (liveFSDJump s raw).current_credits = s.current_credits := by
  simp only [liveFSDJump]
  repeat' split
  all_goals simp

/-- `liveLocation` does not touch the money counters. -/
lemma liveLocation_money (s : LiveState) (raw : RawData) :
    (liveLocation s raw).money_earned = s.money_earned ∧
    (liveLocation s raw).money_spent = s.money_spent ∧
    (liveLocation s raw).current_credits = s.current_credits := by
  simp only [liveLocation]
  repeat' split
  all_goals simp

/-- `liveDocked` does not touch the money counters. -/
lemma liveDocked_money (s : LiveState) (raw : RawData) :
    (liveDocked s raw).money_earned = s.money_earned ∧
    (liveDocked s raw).money_spent = s.money_spent ∧
    (liveDocked s raw).current_credits = s.current_credits := by
  simp only [liveDocked]
  repeat' split
  all_goals simp

/-- `liveBounty` does not touch the money counters. -/
lemma liveBounty_money (s : LiveState) (raw : RawData) :
    (liveBounty s raw).money_earned = s.money_earned ∧
    (liveBounty s raw).money_spent = s.money_spent ∧
    (liveBounty s raw).current_credits = s.current_credits := by
  simp only [liveBounty]
  repeat' split
  all_goals simp

/-- `liveKillBond` does not touch the money counters. -/
lemma liveKillBond_money (s : LiveState) (raw : RawData) :
    (liveKillBond s raw).money_earned = s.money_earned ∧
    (liveKillBond s raw).money_spent = s.money_spent ∧
    (liveKillBond s raw).current_credits = s.current_credits := by
  simp only [liveKillBond]
  repeat' split
  all_goals simp

/-- `liveSellExploration` does not touch the money counters. -/
lemma liveSellExploration_money (s : LiveState) (raw : RawData) :
    (liveSellExploration s raw).money_earned = s.money_earned ∧
    (liveSellExploration s raw).money_spent = s.money_spent ∧
    (liveSellExploration s raw).current_credits = s.current_credits := by
  simp only [liveSellExploration]
  repeat' split
  all_goals simp

/-- `liveMarketSell` does not touch the money counters. -/
lemma liveMarketSell_money (s : LiveState) (raw : RawData) :
    (liveMarketSell s raw).money_earned = s.money_earned ∧
    (liveMarketSell s raw).money_spent = s.money_spent ∧
    (liveMarketSell s raw).current_credits = s.current_credits := by
  simp only [liveMarketSell]
  repeat' split
  all_goals simp

/-- `liveMissionAccepted` does not touch the money counters. -/
lemma liveMissionAccepted_money (s : LiveState) (raw : RawData) :
    (liveMissionAccepted s raw).money_earned = s.money_earned ∧
    (liveMissionAccepted s raw).money_spent = s.money_spent ∧
    (liveMissionAccepted s raw).current_credits = s.current_credits := by
  simp only [liveMissionAccepted]
  all_goals simp

/-- `liveMissionCompleted` does not touch the money counters. -/
lemma liveMissionCompleted_money (s : LiveState) (raw : RawData) :
    (liveMissionCompleted s raw).money_earned = s.money_earned ∧
    (liveMissionCompleted s raw).money_spent = s.money_spent ∧
    (liveMissionCompleted s raw).current_credits = s.current_credits := by
  simp only [liveMissionCompleted]
  repeat' split
  all_goals simp

/-- `liveMissionFailed` does not touch the money counters. -/
lemma liveMissionFailed_money (s : LiveState) (raw : RawData) :
    (liveMissionFailed s raw).money_earned = s.money_earned ∧
    (liveMissionFailed s raw).money_spent = s.money_spent ∧
    (liveMissionFailed s raw).current_credits = s.current_credits :=
  ⟨rfl, rfl, rfl⟩

/-- `liveMissionAbandoned` does not touch the money counters. -/
lemma liveMissionAbandoned_money (s : LiveState) (raw : RawData) :
    (liveMissionAbandoned s raw).money_earned = s.money_earned ∧
    (liveMissionAbandoned s raw).money_spent = s.money_spent ∧
    (liveMissionAbandoned s raw).current_credits = s.current_credits :=
  ⟨rfl, rfl, rfl⟩

/-- `liveRank` does not touch the money counters. -/
lemma liveRank_money (s : LiveState) (raw : RawData) :
    (liveRank s raw).money_earned = s.money_earned ∧
    (liveRank s raw).money_spent = s.money_spent ∧
    (liveRank s raw).current_credits = s.current_credits :=
  ⟨rfl, rfl, rfl⟩

/-- `liveProgress` does not touch the money counters. -/
lemma liveProgress_money (s : LiveState) (raw : RawData) :
    (liveProgress s raw).money_earned = s.money_earned ∧
    (liveProgress s raw).money_spent = s.money_spent ∧
    (liveProgress s raw).current_credits = s.current_credits :=
  ⟨rfl, rfl, rfl⟩

/-- `livePowerplay` does not touch the money counters. -/
lemma livePowerplay_money (s : LiveState) (raw : RawData) :
    (livePowerplay s raw).money_earned = s.money_earned ∧
    (livePowerplay s raw).money_spent = s.money_spent ∧
    (livePowerplay s raw).current_credits = s.current_credits :=
  ⟨rfl, rfl, rfl⟩

/-- `liveReputation` does not touch the money counters. -/
lemma liveReputation_money (s : LiveState) (raw : RawData) :
    (liveReputation s raw).money_earned = s.money_earned ∧
    (liveReputation s raw).money_spent = s.money_spent ∧
    (liveReputation s raw).current_credits = s.current_credits := by
  simp only [liveReputation]
  repeat' split
  all_goals simp

set_option maxHeartbeats 1000000 in
/-- No row of the event chain touches `money_earned`, `money_spent` or
`current_credits`. -/
lemma applyEventChain_money (s : LiveState) (e : EventData) :
    (applyEventChain s e).money_earned = s.money_earned ∧
    (applyEventChain s e).money_spent = s.money_spent ∧
    (applyEventChain s e).current_credits = s.current_credits := by
  simp only [applyEventChain]
  split
  all_goals first
    | exact ⟨rfl, rfl, rfl⟩
    | exact liveFSDJump_money _ _
    | exact liveLocation_money _ _
    | exact liveDocked_money _ _
    | exact liveBounty_money _ _
    | exact liveKillBond_money _ _
    | exact liveSellExploration_money _ _
    | exact liveMarketSell_money _ _
    | exact liveMissionAccepted_money _ _
    | exact liveMissionCompleted_money _ _
    | exact liveMissionFailed_money _ _
    | exact liveMissionAbandoned_money _ _
    | exact liveRank_money _ _
    | exact liveProgress_money _ _
    | exact livePowerplay_money _ _
    | exact liveReputation_money _ _

/-- A non-`LoadGame` event leaves the session-detection block untouched. -/
lemma applyLoadGame_not {s : LiveState} {e : EventData} (hne : e.event ≠ "LoadGame") :
    applyLoadGame s e = s := by
  unfold applyLoadGame
  rw [if_neg hne]

/-- On a non-`LoadGame` event with an active session, `process_event` is the
credits block, the event chain and the ship block in order. -/
lemma processEvent_active {s : LiveState} {e : EventData} {cmdr : String}
    (hne : e.event ≠ "LoadGame") (hc : s.commander = some cmdr) (hcm : cmdr ≠ "") :
    processEvent s e = applyShip (applyEventChain (applyCredits s e) e) e := by
  simp only [processEvent]
  rw [applyLoadGame_not hne, hc]
  simp [hcm]

/-- The event chain at a `Bounty` event. -/
lemma applyEventChain_bounty {s : LiveState} {e : EventData} (hev : e.event = "Bounty") :
    applyEventChain s e = liveBounty s e.raw_data := by
  simp [applyEventChain, hev]

/-- The event chain at a `FactionKillBond` event. -/
lemma applyEventChain_killBond {s : LiveState} {e : EventData}
    (hev : e.event = "FactionKillBond") :
    applyEventChain s e = liveKillBond s e.raw_data := by
  simp [applyEventChain, hev]

/-- The event chain at a `MissionAccepted` event. -/
lemma applyEventChain_accepted {s : LiveState} {e : EventData}
    (hev : e.event = "MissionAccepted") :
    applyEventChain s e = liveMissionAccepted s e.raw_data := by
  simp [applyEventChain, hev]

/-- The event chain at a `MissionCompleted` event. -/
lemma applyEventChain_completed {s : LiveState} {e : EventData}
    (hev : e.event = "MissionCompleted") :
    applyEventChain s e = liveMissionCompleted s e.raw_data := by
  simp [applyEventChain, hev]

/-- The event chain at a `MissionFailed` event. -/
lemma applyEventChain_failed {s : LiveState} {e : EventData}
    (hev : e.event = "MissionFailed") :
    applyEventChain s e = liveMissionFailed s e.raw_data := by
  simp [applyEventChain, hev]

/-- The event chain at a `MissionAbandoned` event. -/
lemma applyEventChain_abandoned {s : LiveState} {e : EventData}
    (hev : e.event = "MissionAbandoned") :
    applyEventChain s e = liveMissionAbandoned s e.raw_data := by
  simp [applyEventChain, hev]

/-- The event chain has no `LoadGame` row. -/
lemma applyEventChain_loadGame {s : LiveState} {e : EventData}
    (hev : e.event = "LoadGame") :
    applyEventChain s e = s := by
  simp [applyEventChain, hev]

/-- Splitting distributes over append when the left part ends with a newline. -/
lemma splitLinesAux_append (b : List Char) :
    ∀ (a : List Char) (cur : List Char), a.getLast? = some '\n' →
      splitLinesAux cur (a ++ b) = splitLinesAux cur a ++ splitLinesAux [] b := by
  intro a
  induction a with
  | nil => intro cur h; simp at h
  | cons c a' ih =>
      intro cur h
      cases a' with
      | nil =>
          simp only [List.getLast?_singleton, Option.some.injEq] at h
          subst h
          simp [splitLinesAux]
      | cons d a'' =>
          have h' : (d :: a'').getLast? = some '\n' := by
            rw [List.getLast?_cons_cons] at h
            exact h
          rw [List.cons_append]
          conv_lhs => rw [splitLinesAux]
          conv_rhs => rw [splitLinesAux]
          by_cases hc : c = '\n'
          · simp only [if_pos hc]
            rw [ih [] h']
            simp
          · simp only [if_neg hc]
            exact ih (c :: cur) h'

/-- `splitLines` distributes over append at a line boundary. -/
lemma splitLines_append (a b : List Char) (h : a = [] ∨ a.getLast? = some '\n') :
    splitLines (a ++ b) = splitLines a ++ splitLines b := by
  cases h with
  | inl h => subst h; simp [splitLines, splitLinesAux]
  | inr h => exact splitLinesAux_append b a [] h

/-- Polling after each whole-line append yields, in total, exactly the line
split of the final content. -/
lemma pollAll_flatten :
    ∀ chunks : List (List Char), (∀ c ∈ chunks, c = [] ∨ c.getLast? = some '\n') →
      ∀ content : List Char, pollAll content content.length chunks = splitLines chunks.flatten := by
  intro chunks
  induction chunks with
  | nil => intro _ content; simp [pollAll, splitLines, splitLinesAux]
  | cons c rest ih =>
      intro h content
      simp only [pollAll, pollFile]
      rw [List.drop_left content c]
      rw [ih (fun x hx => h x (List.mem_cons_of_mem _ hx)) (content ++ c)]
      rw [List.flatten_cons, splitLines_append c rest.flatten (h c (List.mem_cons_self _ _))]

/-- A second scan over files that are all already marked processed leaves the
store untouched and registers no new session. -/
lemma scanLoop_all_processed (parseStart : String → Option String) (useCallback : Bool)
    (total : Nat) (st : StoreState) :
    ∀ (files : List (String × Option (List (Option RawData)))),
      (∀ f ∈ files, f.1 ∈ st.processed_files) →
      ∀ i count ns,
        (scanLoop parseStart false useCallback (fun _ => false) total st i count ns files).1 = st ∧
        (scanLoop parseStart false useCallback (fun _ => false) total st i count ns files).2.2 = ns := by
  intro files
  induction files with
  | nil => intro _ i count ns; exact ⟨rfl, rfl⟩
  | cons f rest ih =>
      intro h i count ns
      obtain ⟨path, content?⟩ := f
      have hmem : path ∈ st.processed_files := h ⟨path, content?⟩ (List.mem_cons_self _ _)
      have hrest : ∀ g ∈ rest, g.1 ∈ st.processed_files :=
        fun g hg => h g (List.mem_cons_of_mem _ hg)
      simp only [scanLoop]
      rw [if_neg (by simp)]
      rw [if_pos ⟨by simp, hmem⟩]
      exact ih hrest (i + 1) _ ns

/-- `archLoadGame` does not touch `kills`. -/
lemma archLoadGame_kills (sd : SessionData) (data : RawData) :
    (archLoadGame sd data).kills = sd.kills := rfl

/-- `archFSDJump` does not touch `kills`. -/
lemma archFSDJump_kills (sd : SessionData) (data : RawData) :
    (archFSDJump sd data).kills = sd.kills := by
  simp only [archFSDJump]
  repeat' split
  all_goals rfl

/-- `archLocation` does not touch `kills`. -/
lemma archLocation_kills (sd : SessionData) (data : RawData) :
    (archLocation sd data).kills = sd.kills := by
  simp only [archLocation]
  repeat' split
  all_goals rfl

/-- `archDocked` does not touch `kills`. -/
lemma archDocked_kills (sd : SessionData) (data : RawData) :
    (archDocked sd data).kills = sd.kills := by
  simp only [archDocked]
  repeat' split
  all_goals rfl

/-- `archBounty` does not touch `kills` (it counts into `bounty_count`). -/
lemma archBounty_kills (sd : SessionData) (data : RawData) :
    (archBounty sd data).kills = sd.kills := by
  simp only [archBounty]
  repeat' split
  all_goals rfl

/-- `archKillBond` does not touch `kills` (only `combat_bonds`). -/
lemma archKillBond_kills (sd : SessionData) (data : RawData) :
    (archKillBond sd data).kills = sd.kills := by
  simp only [archKillBond]
  repeat' split
  all_goals rfl

/-- `archSellExploration` does not touch `kills`. -/
lemma archSellExploration_kills (sd : SessionData) (data : RawData) :
    (archSellExploration sd data).kills = sd.kills := by
  simp only [archSellExploration]
  repeat' split
  all_goals rfl

/-- `archMarketSell` does not touch `kills`. -/
lemma archMarketSell_kills (sd : SessionData) (data : RawData) :
    (archMarketSell sd data).kills = sd.kills := by
  simp only [archMarketSell]
  repeat' split
  all_goals rfl

/-- `archMissionCompleted` does not touch `kills`. -/
lemma archMissionCompleted_kills (sd : SessionData) (data : RawData) :
    (archMissionCompleted sd data).kills = sd.kills := by
  simp only [archMissionCompleted]
  repeat' split
  all_goals rfl

/-- `archPromotion` does not touch `kills`. -/
lemma archPromotion_kills (sd : SessionData) (data : RawData) :
    (archPromotion sd data).kills = sd.kills := by
  simp only [archPromotion]
  repeat' split
  all_goals rfl

/-- No branch of the archival event chain ever touches `kills`. -/
lemma archChain_kills (sd : SessionData) (data : RawData) (event_type : String) :
    (archChain sd data event_type).kills = sd.kills := by
  simp only [archChain]
  split
  all_goals first
    | rfl
    | exact archLoadGame_kills _ _
    | exact archFSDJump_kills _ _
    | exact archLocation_kills _ _
    | exact archDocked_kills _ _
    | exact archBounty_kills _ _
    | exact archKillBond_kills _ _
    | exact archSellExploration_kills _ _
    | exact archMarketSell_kills _ _
    | exact archMissionCompleted_kills _ _
    | exact archPromotion_kills _ _

/-- Folding one archival event never changes `kills`. -/
lemma foldArchEvent_kills (acc : SessionData × Option String) (data : RawData) :
    (foldArchEvent acc data).1.kills = acc.1.kills := by
  simp only [foldArchEvent]
  repeat' split
  all_goals simp [archChain_kills]

/-- A `Bounty` line with a truthy `TotalReward` increments `bounty_count` and
adds the reward to `bounties_earned` in the archival fold. -/
lemma foldArchEvent_bounty (sd : SessionData) (lt : Option String) (data : RawData)
    (hev : getStrD data "event" "" = "Bounty")
    (hr : getIntD data "TotalReward" 0 ≠ 0) :
    (foldArchEvent (sd, lt) data).1.bounty_count = sd.bounty_count + 1 ∧
    (foldArchEvent (sd, lt) data).1.bounties_earned =
      sd.bounties_earned + getIntD data "TotalReward" 0 := by
  simp only [foldArchEvent, hev, archChain, archBounty]
  rw [if_pos hr]
  repeat' split
  all_goals exact ⟨rfl, rfl⟩

/-- A `FactionKillBond` line with a truthy `Reward` adds the reward to
`combat_bonds` in the archival fold. -/
lemma foldArchEvent_killBond (sd : SessionData) (lt : Option String) (data : RawData)
    (hev : getStrD data "event" "" = "FactionKillBond")
    (hr : getIntD data "Reward" 0 ≠ 0) :
    (foldArchEvent (sd, lt) data).1.combat_bonds =
      sd.combat_bonds + getIntD data "Reward" 0 := by
  simp only [foldArchEvent, hev, archChain, archKillBond]
  rw [if_pos hr]
  repeat' split
  all_goals rfl

/-- The reset branch of the `LoadGame` session-detection block: a truthy
commander with no active session or a different source file rebuilds the whole
state from `reset()` plus this event's identity fields. -/
lemma applyLoadGame_reset {s : LiveState} {e : EventData} {c : String}
    (hev : e.event = "LoadGame")
    (hcmdr : getStr? e.raw_data "Commander" = some c) (hc : c ≠ "")
    (htrig : s.commander.getD "" = "" ∨ s.current_log_file ≠ some e.log_file) :
    applyLoadGame s e =
      { resetState with
          commander := some c
          current_log_file := some e.log_file
          start_time := some e.timestamp
          start_credits := some (getIntD e.raw_data "Credits" 0)
          current_credits := some (getIntD e.raw_data "Credits" 0)
          first_ship := getStr? e.raw_data "Ship"
          current_ship := getStr? e.raw_data "Ship"
          first_system := getStr? e.raw_data "StarSystem"
          current_system := getStr? e.raw_data "StarSystem" } := by
  unfold applyLoadGame
  rw [hev, hcmdr]
  rw [if_pos rfl]
  simp only []
  rw [if_pos ⟨hc, htrig⟩]

/-! ## Claim theorems -/

/-- C3 (counterexample): the line `42` parses as the JSON number 42 (a valid
JSON value that is not an object); `parse_log_line` then raises
`AttributeError` out of `data.get(...)` instead of returning a record or
`None`, so the decoder does not hold for every line that parses as a JSON
value, and it can raise to its caller. -/
theorem c3_decoder_counterexample :
    parse_log_line "42" "Journal.log" (some (JVal.jnum 42)) =
      Except.error "AttributeError" := rfl

/-- C3 (amended): the decoder returns a record or `None` and never raises for
blank lines, for non-JSON lines, and for every line that parses as a JSON
OBJECT (not an arbitrary JSON value); in the object case a missing `event`
field defaults to `"Unknown"`. -/
theorem c3_decoder_amended (line lf : String) (jsonResult : Option JVal) :
    (line = "" → parse_log_line line lf jsonResult = Except.ok none) ∧
    (jsonResult = none → parse_log_line line lf jsonResult = Except.ok none) ∧
    (∀ fields : RawData, jsonResult = some (JVal.jobj fields) → line ≠ "" →
      parse_log_line line lf jsonResult =
        Except.ok (some
          { event := getStrD fields "event" "Unknown"
            timestamp := getStrD fields "timestamp" ""
            raw_data := fields
            log_file := lf
            commander := extract_commander_from_event fields }) ∧
      (jget fields "event" = none → getStrD fields "event" "Unknown" = "Unknown")) := by
  refine ⟨?_, ?_, ?_⟩
  · intro h
    subst h
    simp [parse_log_line]
  · intro h
    subst h
    unfold parse_log_line
    split <;> rfl
  · intro fields hj hline
    subst hj
    constructor
    · unfold parse_log_line
      rw [if_neg hline]
    · intro h
      unfold getStrD
      rw [h]

/-- C3 (witness): a concrete line parsing as the empty JSON object decodes to
a record whose event type defaults to `"Unknown"`. -/
theorem c3_decoder_witness :
    "x" ≠ "" ∧
    parse_log_line "x" "Journal.log" (some (JVal.jobj [])) =
      Except.ok (some
        { event := "Unknown", timestamp := "", raw_data := [],
          log_file := "Journal.log", commander := none }) :=
  ⟨by decide,
   ((c3_decoder_amended "x" "Journal.log" (some (JVal.jobj []))).2.2 [] rfl
     (by decide)).1⟩

/-- C9 (counterexample): with the file polled once while a line is still
partial (content `ab`) and again after completion (`ab` extended to
`abcd\n`... here the chunks are `ab` then `cd\n`), the poll yields the two
half-lines `ab` and `cd`, while a single full read of the final content
yields the one line `abcd` — the union of yielded lines does not equal the
full read, and the half-line `ab` is yielded though it is no line of the
final content. -/
theorem c9_tail_counterexample :
    pollAll [] 0 [['a', 'b'], ['c', 'd', '\n']] = [['a', 'b'], ['c', 'd']] ∧
    splitLines (List.flatten [['a', 'b'], ['c', 'd', '\n']]) = [['a', 'b', 'c', 'd']] ∧
    ['a', 'b'] ∈ pollAll [] 0 [['a', 'b'], ['c', 'd', '\n']] ∧
    ['a', 'b'] ∉ splitLines (List.flatten [['a', 'b'], ['c', 'd', '\n']]) := by
  decide

/-- C9 (amended): the stored byte offset equals the file length after each
poll and is non-decreasing under appends; and when every poll happens at a
line boundary (each appended chunk ends with a newline, or is empty), the
concatenation of the lines yielded across all polls from a fresh cursor
equals the lines of a single full read of the final content — in particular
no line is ever re-yielded. -/
theorem c9_tail_amended (content extra : List Char) (off : Nat)
    (chunks : List (List Char))
    (h : ∀ c ∈ chunks, c = [] ∨ c.getLast? = some '\n') :
    (pollFile content off).2 = content.length ∧
    (pollFile content off).2 ≤ (pollFile (content ++ extra) off).2 ∧
    pollAll [] 0 chunks = splitLines chunks.flatten := by
  refine ⟨rfl, ?_, ?_⟩
  · show content.length ≤ (content ++ extra).length
    simp
  · exact pollAll_flatten chunks h []

/-- C9 (witness): two whole-line appends are polled without loss or
duplication. -/
theorem c9_tail_witness :
    (∀ c ∈ [['a', '\n'], ['b', '\n']], c = [] ∨ c.getLast? = some '\n') ∧
    pollAll [] 0 [['a', '\n'], ['b', '\n']] =
      splitLines (List.flatten [['a', '\n'], ['b', '\n']]) :=
  ⟨by decide,
   (c9_tail_amended [] [] 0 [['a', '\n'], ['b', '\n']] (by decide)).2.2⟩

/-- C2 (code evaluated at the failing input): scanning a directory whose one
file is already marked processed, with a progress callback supplied, fires
the callback twice for that skipped file — once in the skip branch and once
more in the `finally` block that Python runs on `continue` — reporting
(1, 1) and then (2, 1), so the callback is not invoked exactly once per file
and the reported completed count exceeds the total. -/
theorem c2_progress_double_call :
    (scanAllLogs (fun _ => none) procStore [("J1.log", some [])] false true
        (fun _ => false)).calls = [(1, 1), (2, 1)] ∧
    (scanAllLogs (fun _ => none) procStore [("J1.log", some [])] false true
        (fun _ => false)).calls ≠ [(1, 1)] ∧
    (2, 1) ∈ (scanAllLogs (fun _ => none) procStore [("J1.log", some [])] false true
        (fun _ => false)).calls := by
  decide

/-- C8: a second scan (with `force_rescan = false`) over a listing whose every
file is already in the processed set leaves the sessions table and the
processed-file set exactly as they were, marks zero new files, and performs
no store write. -/
theorem c8_rescan_idempotent (parseStart : String → Option String)
    (st : StoreState) (files : List (String × Option (List (Option RawData))))
    (useCallback : Bool)
    (h : ∀ f ∈ files, f.1 ∈ st.processed_files) :
    (scanAllLogs parseStart st files false useCallback (fun _ => false)).state = st ∧
    (scanAllLogs parseStart st files false useCallback (fun _ => false)).new_sessions = 0 ∧
    (scanAllLogs parseStart st files false useCallback (fun _ => false)).saved = false := by
  have hmain := scanLoop_all_processed parseStart useCallback files.length st files h 0 0 0
  refine ⟨hmain.1, hmain.2, ?_⟩
  simp only [scanAllLogs]
  rw [hmain.2]
  rfl

/-- C8 (witness): re-scanning the already-processed `J1.log` listing changes
nothing. -/
theorem c8_rescan_witness :
    (∀ f ∈ [("J1.log", (some [] : Option (List (Option RawData))))],
        f.1 ∈ procStore.processed_files) ∧
    ((scanAllLogs (fun _ => none) procStore [("J1.log", some [])] false true
        (fun _ => false)).state = procStore ∧
     (scanAllLogs (fun _ => none) procStore [("J1.log", some [])] false true
        (fun _ => false)).new_sessions = 0 ∧
     (scanAllLogs (fun _ => none) procStore [("J1.log", some [])] false true
        (fun _ => false)).saved = false) :=
  ⟨by simp [procStore],
   c8_rescan_idempotent (fun _ => none) procStore [("J1.log", some [])] true
     (by simp [procStore])⟩

/-- C7 (code evaluated at the failing input): against a store with zero
matching sessions, `get_session_statistics` returns its hard-coded zero
record, which is missing five numeric keys that the non-empty-store result
carries (`total_fss_scans`, `total_dss_scans`, `total_codex_entries`,
`total_missions_accepted`, `total_missions_failed`) — so not every numeric
field of the non-empty result is present in the empty-store result; the keys
the empty record does carry are all zero. -/
theorem c7_empty_stats_missing_keys :
    (∀ k ∈ ["total_fss_scans", "total_dss_scans", "total_codex_entries",
            "total_missions_accepted", "total_missions_failed"],
        alookup (getSessionStatistics []) k = none ∧
        alookup (getSessionStatistics [{}]) k = some (StatVal.num 0)) ∧
    (∀ p ∈ getSessionStatistics [], p.2 = StatVal.num 0) ∧
    alookup (getSessionStatistics []) "total_jumps" = some (StatVal.num 0) := by
  decide

/-- C1 (counterexample): a journal holding one `LoadGame` and one `Bounty`
with `TotalReward = 100 > 0` gives an archival summary whose `kills` is still
0, while the Live Aggregator's `kills` is 1 after the same events — the
archival fold does not increment `kills` as the claim states. -/
theorem c1_fold_counterexample :
    (processLogFile "Journal.log" "Journal.log" none [some lgObj, some bountyObj]).kills = 0 ∧
    (processEvents {} [lgEvent "A" "F1" 1000, bountyEvent]).kills = 1 ∧
    (processLogFile "Journal.log" "Journal.log" none [some lgObj, some bountyObj]).kills ≠
      (processEvents {} [lgEvent "A" "F1" 1000, bountyEvent]).kills := by
  decide

/-- C1 (amended): the archival per-event fold applies the same reward
summation as the live table — a `Bounty` with positive `TotalReward` adds the
reward to `bounties_earned` and a `FactionKillBond` with positive `Reward`
adds to `combat_bonds` — but it counts a positive-reward `Bounty` into
`bounty_count`, not `kills`, and no archival branch ever touches `kills`
(the summary's `kills` keeps its initial 0), whereas the live tracker
increments `kills` by 1 for both event kinds. -/
theorem c1_amended_fold (sd : SessionData) (lt : Option String) (data : RawData)
    (s : LiveState) (e : EventData) (cmdr : String)
    (hc : s.commander = some cmdr) (hcm : cmdr ≠ "") :
    ((foldArchEvent (sd, lt) data).1.kills = sd.kills) ∧
    (getStrD data "event" "" = "Bounty" → 0 < getIntD data "TotalReward" 0 →
      (foldArchEvent (sd, lt) data).1.bounty_count = sd.bounty_count + 1 ∧
      (foldArchEvent (sd, lt) data).1.bounties_earned =
        sd.bounties_earned + getIntD data "TotalReward" 0) ∧
    (getStrD data "event" "" = "FactionKillBond" → 0 < getIntD data "Reward" 0 →
      (foldArchEvent (sd, lt) data).1.combat_bonds =
        sd.combat_bonds + getIntD data "Reward" 0) ∧
    (e.event = "Bounty" → 0 < getIntD e.raw_data "TotalReward" 0 →
      (processEvent s e).kills = s.kills + 1) ∧
    (e.event = "FactionKillBond" → 0 < getIntD e.raw_data "Reward" 0 →
      (processEvent s e).kills = s.kills + 1) := by
  refine ⟨foldArchEvent_kills (sd, lt) data, ?_, ?_, ?_, ?_⟩
  · intro hev hr
    exact foldArchEvent_bounty sd lt data hev (by omega)
  · intro hev hr
    exact foldArchEvent_killBond sd lt data hev (by omega)
  · intro hev hr
    rw [processEvent_active (by simp [hev]) hc hcm]
    obtain ⟨cs, hS⟩ := applyShip_shape (applyEventChain (applyCredits s e) e) e
    rw [hS, applyEventChain_bounty hev]
    obtain ⟨me, ms, cc, hC⟩ := applyCredits_shape s e
    show (liveBounty (applyCredits s e) e.raw_data).kills = s.kills + 1
    unfold liveBounty
    rw [if_pos (by omega : getIntD e.raw_data "TotalReward" 0 ≠ 0)]
    rw [hC]
  · intro hev hr
    rw [processEvent_active (by simp [hev]) hc hcm]
    obtain ⟨cs, hS⟩ := applyShip_shape (applyEventChain (applyCredits s e) e) e
    rw [hS, applyEventChain_killBond hev]
    obtain ⟨me, ms, cc, hC⟩ := applyCredits_shape s e
    show (liveKillBond (applyCredits s e) e.raw_data).kills = s.kills + 1
    unfold liveKillBond
    rw [if_pos (by omega : getIntD e.raw_data "Reward" 0 ≠ 0)]
    rw [hC]

/-- C1 (witness): the amended statement at the concrete `Bounty` journal
line with reward 100 and the live tracker mid-session. -/
theorem c1_amended_fold_witness :
    ((processEvents {} [lgEvent "A" "F1" 1000]).commander = some "A" ∧
     getStrD bountyObj "event" "" = "Bounty" ∧
     (0 : Int) < getIntD bountyObj "TotalReward" 0 ∧
     bountyEvent.event = "Bounty" ∧
     (0 : Int) < getIntD bountyEvent.raw_data "TotalReward" 0) ∧
    (foldArchEvent (initSessionData "J" "J" none, none) bountyObj).1.bounty_count =
      (initSessionData "J" "J" none).bounty_count + 1 ∧
    (foldArchEvent (initSessionData "J" "J" none, none) bountyObj).1.kills =
      (initSessionData "J" "J" none).kills ∧
    (processEvent (processEvents {} [lgEvent "A" "F1" 1000]) bountyEvent).kills =
      (processEvents {} [lgEvent "A" "F1" 1000]).kills + 1 := by
  have h := c1_amended_fold (initSessionData "J" "J" none) none bountyObj
    (processEvents {} [lgEvent "A" "F1" 1000]) bountyEvent "A" rfl (by decide)
  exact ⟨⟨rfl, rfl, by decide, rfl, by decide⟩,
    (h.2.1 rfl (by decide)).1, h.1, h.2.2.2.1 rfl (by decide)⟩

/-- C4 (counterexample): with an active session at credits 1000, a duplicate
same-commander `LoadGame` carrying `Credits = 1500` does NOT add 500 to
`money_earned`: the update pulse refreshes `current_credits` to 1500 before
the generic credits block runs, so the computed delta is 0 and both money
counters stay 0. -/
theorem c4_credits_counterexample :
    (processEvents {} [lgEvent "A" "F1" 1000]).current_credits = some 1000 ∧
    (processEvents {} [lgEvent "A" "F1" 1000, lgEvent "A" "F1" 1500]).money_earned = 0 ∧
    (processEvents {} [lgEvent "A" "F1" 1000, lgEvent "A" "F1" 1500]).money_spent = 0 ∧
    (processEvents {} [lgEvent "A" "F1" 1000, lgEvent "A" "F1" 1500]).current_credits =
      some 1500 ∧
    (processEvents {} [lgEvent "A" "F1" 1000, lgEvent "A" "F1" 1500]).money_earned ≠
      (processEvents {} [lgEvent "A" "F1" 1000]).money_earned + 500 := by
  decide

/-- C4 (amended): while a session is active with current credits `c`, an event
carrying `Credits = n` follows the signed-delta rule — positive `n - c` adds
to `money_earned`, non-positive adds `|n - c|` to `money_spent`, and current
credits becomes `n` — for every event type OTHER than `LoadGame`.  A
duplicate same-commander same-file `LoadGame` instead refreshes current
credits to `n` before the delta is computed, so both money counters are left
unchanged (the delta seen is zero). -/
theorem c4_credits_amended (s : LiveState) (e : EventData) (cmdr : String) (c n : Int)
    (hc : s.commander = some cmdr) (hcm : cmdr ≠ "")
    (hcur : s.current_credits = some c)
    (hcred : jget e.raw_data "Credits" = some (JVal.jnum n)) :
    (e.event ≠ "LoadGame" →
      (0 < n - c → (processEvent s e).money_earned = s.money_earned + (n - c) ∧
                   (processEvent s e).money_spent = s.money_spent) ∧
      (n - c ≤ 0 → (processEvent s e).money_spent = s.money_spent + |n - c| ∧
                   (processEvent s e).money_earned = s.money_earned) ∧
      (processEvent s e).current_credits = some n) ∧
    (e.event = "LoadGame" → getStr? e.raw_data "Commander" = some cmdr →
        s.current_log_file = some e.log_file →
      (processEvent s e).money_earned = s.money_earned ∧
      (processEvent s e).money_spent = s.money_spent ∧
      (processEvent s e).current_credits = some n) := by
  have hk : hasKey e.raw_data "Credits" = true := jget_hasKey hcred
  constructor
  · intro hne
    have hAC : applyCredits s e =
        if 0 < n - c then
          { s with money_earned := s.money_earned + (n - c), current_credits := some n }
        else
          { s with money_spent := s.money_spent + |n - c|, current_credits := some n } := by
      unfold applyCredits
      rw [hk, if_pos rfl]
      simp only []
      rw [hcur]
      simp only []
      rw [getIntD_eq 0 hcred]
      split <;> rfl
    obtain ⟨cs, hS⟩ := applyShip_shape (applyEventChain (applyCredits s e) e) e
    have hm := applyEventChain_money (applyCredits s e) e
    have hE : (processEvent s e).money_earned = (applyCredits s e).money_earned := by
      rw [processEvent_active hne hc hcm, hS]
      exact hm.1
    have hSp : (processEvent s e).money_spent = (applyCredits s e).money_spent := by
      rw [processEvent_active hne hc hcm, hS]
      exact hm.2.1
    have hCc : (processEvent s e).current_credits = (applyCredits s e).current_credits := by
      rw [processEvent_active hne hc hcm, hS]
      exact hm.2.2
    rw [hAC] at hE hSp hCc
    refine ⟨?_, ?_, ?_⟩
    · intro hpos
      rw [if_pos hpos] at hE hSp
      exact ⟨hE, hSp⟩
    · intro hle
      rw [if_neg (by omega)] at hE hSp
      exact ⟨hSp, hE⟩
    · by_cases hpos : 0 < n - c
      · rw [if_pos hpos] at hCc
        exact hCc
      · rw [if_neg hpos] at hCc
        exact hCc
  · intro hev hcmd hlog
    have hLG : applyLoadGame s e =
        { s with current_credits := getIntOr e.raw_data "Credits" s.current_credits
                 current_ship := getStrOr e.raw_data "Ship" s.current_ship
                 current_system := getStrOr e.raw_data "StarSystem" s.current_system } := by
      unfold applyLoadGame
      rw [hev, hcmd, if_pos rfl]
      simp only []
      rw [if_neg ?_, if_pos hc.symm]
      rintro ⟨-, h2 | h2⟩
      · rw [hc] at h2
        exact hcm (by simpa using h2)
      · exact h2 hlog
    have hcc2 : (applyLoadGame s e).current_credits = some n := by
      rw [hLG]
      show getIntOr e.raw_data "Credits" s.current_credits = some n
      unfold getIntOr
      rw [hk, if_pos rfl]
      exact getInt?_eq hcred
    have hguard : ¬ ((applyLoadGame s e).commander.getD "" = "") := by
      rw [hLG]
      show ¬ (s.commander.getD "" = "")
      rw [hc]
      simpa using hcm
    have hPE : processEvent s e =
        applyShip (applyEventChain (applyCredits (applyLoadGame s e) e) e) e := by
      simp only [processEvent]
      rw [if_neg hguard]
    have hAC2 : applyCredits (applyLoadGame s e) e =
        { applyLoadGame s e with
            money_spent := (applyLoadGame s e).money_spent + |n - n|
            current_credits := some n } := by
      unfold applyCredits
      rw [hk, if_pos rfl]
      simp only []
      rw [hcc2]
      simp only []
      rw [getIntD_eq 0 hcred]
      rw [if_neg (by omega : ¬ (n - n > 0))]
    obtain ⟨cs2, hS2⟩ := applyShip_shape (applyEventChain (applyCredits (applyLoadGame s e) e) e) e
    have hm2 := applyEventChain_money (applyCredits (applyLoadGame s e) e) e
    have h1 : (processEvent s e).money_earned =
        (applyCredits (applyLoadGame s e) e).money_earned := by
      rw [hPE, hS2]
      exact hm2.1
    have h2 : (processEvent s e).money_spent =
        (applyCredits (applyLoadGame s e) e).money_spent := by
      rw [hPE, hS2]
      exact hm2.2.1
    have h3 : (processEvent s e).current_credits =
        (applyCredits (applyLoadGame s e) e).current_credits := by
      rw [hPE, hS2]
      exact hm2.2.2
    rw [hAC2, hLG] at h1 h2 h3
    refine ⟨h1, ?_, h3⟩
    rw [h2]
    show s.money_spent + |n - n| = s.money_spent
    simp

/-- C4 (witness): a `Docked` event carrying `Credits = 700` against current
credits 1000 adds 300 to `money_spent` and leaves `money_earned` unchanged. -/
theorem c4_credits_witness :
    ((processEvents {} [lgEvent "A" "F1" 1000]).commander = some "A" ∧
     (processEvents {} [lgEvent "A" "F1" 1000]).current_credits = some 1000 ∧
     jget [("event", JVal.jstr "Docked"), ("Credits", JVal.jnum 700)] "Credits" =
       some (JVal.jnum 700) ∧
     ((700 : Int) - 1000 ≤ 0)) ∧
    ((processEvent (processEvents {} [lgEvent "A" "F1" 1000])
        { event := "Docked", timestamp := "",
          raw_data := [("event", JVal.jstr "Docked"), ("Credits", JVal.jnum 700)],
          log_file := "F1" }).money_spent =
      (processEvents {} [lgEvent "A" "F1" 1000]).money_spent + |(700 : Int) - 1000| ∧
     (processEvent (processEvents {} [lgEvent "A" "F1" 1000])
        { event := "Docked", timestamp := "",
          raw_data := [("event", JVal.jstr "Docked"), ("Credits", JVal.jnum 700)],
          log_file := "F1" }).money_earned =
      (processEvents {} [lgEvent "A" "F1" 1000]).money_earned) :=
  ⟨⟨rfl, rfl, rfl, by decide⟩,
   ((c4_credits_amended (processEvents {} [lgEvent "A" "F1" 1000])
      { event := "Docked", timestamp := "",
        raw_data := [("event", JVal.jstr "Docked"), ("Credits", JVal.jnum 700)],
        log_file := "F1" } "A" 1000 700 rfl (by decide) rfl rfl).1
      (by decide)).2.1 (by decide)⟩

/-- C5: a `LoadGame` carrying a commander, arriving with no active session or
from a different log file, rebuilds the entire state: identity fields come
from the event and every other counter and collection equals its
freshly-reset value — nothing from the prior session survives. -/
theorem c5_session_reset (s : LiveState) (e : EventData) (c : String)
    (hev : e.event = "LoadGame")
    (hcmdr : getStr? e.raw_data "Commander" = some c) (hc : c ≠ "")
    (htrig : s.commander.getD "" = "" ∨ s.current_log_file ≠ some e.log_file) :
    processEvent s e =
      { resetState with
          commander := some c
          current_log_file := some e.log_file
          start_time := some e.timestamp
          start_credits := some (getIntD e.raw_data "Credits" 0)
          current_credits := some (getIntD e.raw_data "Credits" 0)
          first_ship := getStr? e.raw_data "Ship"
          current_ship := getStr? e.raw_data "Ship"
          first_system := getStr? e.raw_data "StarSystem"
          current_system := getStr? e.raw_data "StarSystem" } := by
  have hR := applyLoadGame_reset hev hcmdr hc htrig
  simp only [processEvent]
  rw [hR]
  rw [if_neg (by simpa using hc)]
  have hAC : applyCredits
      { resetState with
          commander := some c
          current_log_file := some e.log_file
          start_time := some e.timestamp
          start_credits := some (getIntD e.raw_data "Credits" 0)
          current_credits := some (getIntD e.raw_data "Credits" 0)
          first_ship := getStr? e.raw_data "Ship"
          current_ship := getStr? e.raw_data "Ship"
          first_system := getStr? e.raw_data "StarSystem"
          current_system := getStr? e.raw_data "StarSystem" } e =
      { resetState with
          commander := some c
          current_log_file := some e.log_file
          start_time := some e.timestamp
          start_credits := some (getIntD e.raw_data "Credits" 0)
          current_credits := some (getIntD e.raw_data "Credits" 0)
          first_ship := getStr? e.raw_data "Ship"
          current_ship := getStr? e.raw_data "Ship"
          first_system := getStr? e.raw_data "StarSystem"
          current_system := getStr? e.raw_data "StarSystem" } := by
    unfold applyCredits
    split
    · simp
    · rfl
  rw [hAC, applyEventChain_loadGame hev]
  unfold applyShip
  split
  · rfl
  · rfl

/-- C5 (witness): feeding `[LoadGame(A, F1), FSDJump, LoadGame(B, F2)]` leaves
commander B active with zero jumps — A's jump does not leak into B's state. -/
theorem c5_session_witness :
    ((lgEvent "B" "F2" 500).event = "LoadGame" ∧
     getStr? (lgEvent "B" "F2" 500).raw_data "Commander" = some "B" ∧
     ((processEvents {} [lgEvent "A" "F1" 1000, jumpEvent]).commander.getD "" = "" ∨
      (processEvents {} [lgEvent "A" "F1" 1000, jumpEvent]).current_log_file ≠
        some (lgEvent "B" "F2" 500).log_file)) ∧
    processEvent (processEvents {} [lgEvent "A" "F1" 1000, jumpEvent]) (lgEvent "B" "F2" 500) =
      { resetState with
          commander := some "B"
          current_log_file := some "F2"
          start_time := some "2024-01-01T00:00:00Z"
          start_credits := some 500
          current_credits := some 500
          first_ship := some "Sidewinder"
          current_ship := some "Sidewinder"
          first_system := some "Sol"
          current_system := some "Sol" } ∧
    (processEvent (processEvents {} [lgEvent "A" "F1" 1000, jumpEvent])
        (lgEvent "B" "F2" 500)).jumps = 0 ∧
    (processEvents {} [lgEvent "A" "F1" 1000, jumpEvent]).jumps = 1 := by
  refine ⟨⟨rfl, rfl, Or.inr (by decide)⟩, ?_, ?_, by decide⟩
  · exact c5_session_reset (processEvents {} [lgEvent "A" "F1" 1000, jumpEvent])
      (lgEvent "B" "F2" 500) "B" rfl rfl (by decide) (Or.inr (by decide))
  · rw [c5_session_reset (processEvents {} [lgEvent "A" "F1" 1000, jumpEvent])
      (lgEvent "B" "F2" 500) "B" rfl rfl (by decide) (Or.inr (by decide))]
    rfl

/-- C6: with a session active, `MissionAccepted` with id `mid` upserts into
`active_missions` keyed by `MissionID` — any entry with the same id is dropped
before the new one is appended, so exactly one entry with that id remains —
and `MissionCompleted` with id `mid` removes the matching entry, increments
`missions_completed`, adds the event's `Reward` to `mission_rewards`, and
appends exactly one record to `completed_missions`. -/
theorem c6_mission_lifecycle (s : LiveState) (e : EventData) (cmdr : String) (mid : Int)
    (hc : s.commander = some cmdr) (hcm : cmdr ≠ "")
    (hmid : jget e.raw_data "MissionID" = some (JVal.jnum mid)) :
    (e.event = "MissionAccepted" →
      (processEvent s e).active_missions =
        s.active_missions.filter (fun x => x.missionID ≠ some mid) ++
          [{ missionID := some mid
             name := getStrD e.raw_data "Name" ""
             faction := getStrD e.raw_data "Faction" ""
             expiry := getStrD e.raw_data "Expiry" ""
             destinationSystem := getStrD e.raw_data "DestinationSystem" ""
             destinationStation := getStrD e.raw_data "DestinationStation" "" }] ∧
      (processEvent s e).active_missions.countP (fun x => x.missionID = some mid) = 1 ∧
      (processEvent s e).completed_missions = s.completed_missions) ∧
    (e.event = "MissionCompleted" →
      (processEvent s e).active_missions =
        s.active_missions.filter (fun x => x.missionID ≠ some mid) ∧
      (processEvent s e).missions_completed = s.missions_completed + 1 ∧
      (processEvent s e).mission_rewards = s.mission_rewards + getIntD e.raw_data "Reward" 0 ∧
      (processEvent s e).completed_missions = s.completed_missions ++
        [{ name := getStrD e.raw_data "Name" ""
           faction := getStrD e.raw_data "Faction" ""
           reward := getIntD e.raw_data "Reward" 0
           factionEffects := parseFactionEffects e.raw_data
           materialsReward := parseMaterialsReward e.raw_data }]) := by
  have hgid : getInt? e.raw_data "MissionID" = some mid := getInt?_eq hmid
  constructor
  · intro hev
    obtain ⟨cs, hS⟩ := applyShip_shape (applyEventChain (applyCredits s e) e) e
    obtain ⟨me, ms, cc, hC⟩ := applyCredits_shape s e
    have hLMA : liveMissionAccepted (applyCredits s e) e.raw_data =
        { applyCredits s e with
            active_missions :=
              (applyCredits s e).active_missions.filter (fun x => x.missionID ≠ some mid) ++
                [{ missionID := some mid
                   name := getStrD e.raw_data "Name" ""
                   faction := getStrD e.raw_data "Faction" ""
                   expiry := getStrD e.raw_data "Expiry" ""
                   destinationSystem := getStrD e.raw_data "DestinationSystem" ""
                   destinationStation := getStrD e.raw_data "DestinationStation" "" }] } := by
      unfold liveMissionAccepted
      rw [hgid]
    have hA : (processEvent s e).active_missions =
        s.active_missions.filter (fun x => x.missionID ≠ some mid) ++
          [{ missionID := some mid
             name := getStrD e.raw_data "Name" ""
             faction := getStrD e.raw_data "Faction" ""
             expiry := getStrD e.raw_data "Expiry" ""
             destinationSystem := getStrD e.raw_data "DestinationSystem" ""
             destinationStation := getStrD e.raw_data "DestinationStation" "" }] := by
      rw [processEvent_active (by simp [hev]) hc hcm, hS, applyEventChain_accepted hev,
        hLMA, hC]
    refine ⟨hA, ?_, ?_⟩
    · rw [hA, List.countP_append]
      have h0 : (s.active_missions.filter
          (fun x => x.missionID ≠ some mid)).countP (fun x => x.missionID = some mid) = 0 := by
        rw [List.countP_eq_zero]
        intro a ha
        have hf := List.of_mem_filter ha
        simp at hf ⊢
        exact hf
      rw [h0]
      simp
    · rw [processEvent_active (by simp [hev]) hc hcm, hS, applyEventChain_accepted hev,
        hLMA, hC]
  · intro hev
    obtain ⟨cs, hS⟩ := applyShip_shape (applyEventChain (applyCredits s e) e) e
    obtain ⟨me, ms, cc, hC⟩ := applyCredits_shape s e
    have hLMC : liveMissionCompleted (applyCredits s e) e.raw_data =
        { applyCredits s e with
            missions_completed := (applyCredits s e).missions_completed + 1
            mission_rewards :=
              if getIntD e.raw_data "Reward" 0 ≠ 0 then
                (applyCredits s e).mission_rewards + getIntD e.raw_data "Reward" 0
              else (applyCredits s e).mission_rewards
            active_missions :=
              (applyCredits s e).active_missions.filter (fun x => x.missionID ≠ some mid)
            completed_missions := (applyCredits s e).completed_missions ++
              [{ name := getStrD e.raw_data "Name" ""
                 faction := getStrD e.raw_data "Faction" ""
                 reward := getIntD e.raw_data "Reward" 0
                 factionEffects := parseFactionEffects e.raw_data
                 materialsReward := parseMaterialsReward e.raw_data }] } := by
      unfold liveMissionCompleted
      simp only []
      rw [hgid]
      split <;> rfl
    refine ⟨?_, ?_, ?_, ?_⟩
    · rw [processEvent_active (by simp [hev]) hc hcm, hS, applyEventChain_completed hev,
        hLMC, hC]
    · rw [processEvent_active (by simp [hev]) hc hcm, hS, applyEventChain_completed hev,
        hLMC, hC]
    · rw [processEvent_active (by simp [hev]) hc hcm, hS, applyEventChain_completed hev,
        hLMC, hC]
      show (if getIntD e.raw_data "Reward" 0 ≠ 0 then
              s.mission_rewards + getIntD e.raw_data "Reward" 0
            else s.mission_rewards) = s.mission_rewards + getIntD e.raw_data "Reward" 0
      split
      · rfl
      · rename_i hr
        simp at hr
        rw [hr]
        simp
    · rw [processEvent_active (by simp [hev]) hc hcm, hS, applyEventChain_completed hev,
        hLMC, hC]

/-- C6 (witness): `Accepted(7)` then `Completed(7)` leaves `active_missions`
empty and `completed_missions` of length 1; `Accepted(7)` twice leaves one
entry. -/
theorem c6_mission_witness :
    ((processEvents {} [lgEvent "A" "F1" 0, acceptEvent (some 7)]).commander = some "A" ∧
     jget (completeEvent (some 7)).raw_data "MissionID" = some (JVal.jnum 7)) ∧
    (processEvent (processEvents {} [lgEvent "A" "F1" 0, acceptEvent (some 7)])
        (completeEvent (some 7))).active_missions =
      (processEvents {} [lgEvent "A" "F1" 0, acceptEvent (some 7)]).active_missions.filter
        (fun x => x.missionID ≠ some 7) ∧
    (processEvents {} [lgEvent "A" "F1" 0, acceptEvent (some 7),
        completeEvent (some 7)]).active_missions = [] ∧
    (processEvents {} [lgEvent "A" "F1" 0, acceptEvent (some 7),
        completeEvent (some 7)]).completed_missions.length = 1 ∧
    (processEvents {} [lgEvent "A" "F1" 0, acceptEvent (some 7),
        acceptEvent (some 7)]).active_missions.length = 1 := by
  refine ⟨⟨rfl, rfl⟩, ?_, by decide, by decide, by decide⟩
  exact ((c6_mission_lifecycle (processEvents {} [lgEvent "A" "F1" 0, acceptEvent (some 7)])
    (completeEvent (some 7)) "A" 7 rfl (by decide) rfl).2 rfl).1

/-- C10: with a session active, a `MissionAccepted` with no `MissionID` is
appended without deduplication, and a `MissionCompleted`, `MissionFailed` or
`MissionAbandoned` with no `MissionID` removes, in one step, every active
mission whose stored `MissionID` is absent. -/
theorem c10_missing_id (s : LiveState) (e : EventData) (cmdr : String)
    (hc : s.commander = some cmdr) (hcm : cmdr ≠ "")
    (hmid : getInt? e.raw_data "MissionID" = none) :
    (e.event = "MissionAccepted" →
      (processEvent s e).active_missions = s.active_missions ++
        [{ missionID := none
           name := getStrD e.raw_data "Name" ""
           faction := getStrD e.raw_data "Faction" ""
           expiry := getStrD e.raw_data "Expiry" ""
           destinationSystem := getStrD e.raw_data "DestinationSystem" ""
           destinationStation := getStrD e.raw_data "DestinationStation" "" }]) ∧
    (e.event = "MissionCompleted" →
      (processEvent s e).active_missions =
        s.active_missions.filter (fun x => x.missionID ≠ none)) ∧
    (e.event = "MissionFailed" →
      (processEvent s e).active_missions =
        s.active_missions.filter (fun x => x.missionID ≠ none)) ∧
    (e.event = "MissionAbandoned" →
      (processEvent s e).active_missions =
        s.active_missions.filter (fun x => x.missionID ≠ none)) := by
  refine ⟨?_, ?_, ?_, ?_⟩
  · intro hev
    obtain ⟨cs, hS⟩ := applyShip_shape (applyEventChain (applyCredits s e) e) e
    obtain ⟨me, ms, cc, hC⟩ := applyCredits_shape s e
    have hLMA : liveMissionAccepted (applyCredits s e) e.raw_data =
        { applyCredits s e with
            active_missions := (applyCredits s e).active_missions ++
              [{ missionID := none
                 name := getStrD e.raw_data "Name" ""
                 faction := getStrD e.raw_data "Faction" ""
                 expiry := getStrD e.raw_data "Expiry" ""
                 destinationSystem := getStrD e.raw_data "DestinationSystem" ""
                 destinationStation := getStrD e.raw_data "DestinationStation" "" }] } := by
      unfold liveMissionAccepted
      rw [hmid]
    rw [processEvent_active (by simp [hev]) hc hcm, hS, applyEventChain_accepted hev,
      hLMA, hC]
  · intro hev
    obtain ⟨cs, hS⟩ := applyShip_shape (applyEventChain (applyCredits s e) e) e
    obtain ⟨me, ms, cc, hC⟩ := applyCredits_shape s e
    have hLMC : liveMissionCompleted (applyCredits s e) e.raw_data =
        { applyCredits s e with
            missions_completed := (applyCredits s e).missions_completed + 1
            mission_rewards :=
              if getIntD e.raw_data "Reward" 0 ≠ 0 then
                (applyCredits s e).mission_rewards + getIntD e.raw_data "Reward" 0
              else (applyCredits s e).mission_rewards
            active_missions :=
              (applyCredits s e).active_missions.filter (fun x => x.missionID ≠ none)
            completed_missions := (applyCredits s e).completed_missions ++
              [{ name := getStrD e.raw_data "Name" ""
                 faction := getStrD e.raw_data "Faction" ""
                 reward := getIntD e.raw_data "Reward" 0
                 factionEffects := parseFactionEffects e.raw_data
                 materialsReward := parseMaterialsReward e.raw_data }] } := by
      unfold liveMissionCompleted
      simp only []
      rw [hmid]
      split <;> rfl
    rw [processEvent_active (by simp [hev]) hc hcm, hS, applyEventChain_completed hev,
      hLMC, hC]
  · intro hev
    obtain ⟨cs, hS⟩ := applyShip_shape (applyEventChain (applyCredits s e) e) e
    obtain ⟨me, ms, cc, hC⟩ := applyCredits_shape s e
    have hLMF : liveMissionFailed (applyCredits s e) e.raw_data =
        { applyCredits s e with
            active_missions :=
              (applyCredits s e).active_missions.filter (fun x => x.missionID ≠ none)
            failed_missions := (applyCredits s e).failed_missions ++
              [{ name := getStrD e.raw_data "Name" ""
                 faction := getStrD e.raw_data "Faction" "" }] } := by
      unfold liveMissionFailed
      rw [hmid]
    rw [processEvent_active (by simp [hev]) hc hcm, hS, applyEventChain_failed hev,
      hLMF, hC]
  · intro hev
    obtain ⟨cs, hS⟩ := applyShip_shape (applyEventChain (applyCredits s e) e) e
    obtain ⟨me, ms, cc, hC⟩ := applyCredits_shape s e
    have hLMAb : liveMissionAbandoned (applyCredits s e) e.raw_data =
        { applyCredits s e with
            active_missions :=
              (applyCredits s e).active_missions.filter (fun x => x.missionID ≠ none) } := by
      unfold liveMissionAbandoned
      rw [hmid]
    rw [processEvent_active (by simp [hev]) hc hcm, hS, applyEventChain_abandoned hev,
      hLMAb, hC]

/-- C10 (witness): two id-less accepts yield two entries; an id-less
`MissionCompleted` then removes both in one step. -/
theorem c10_missing_id_witness :
    ((processEvents {} [lgEvent "A" "F1" 0, acceptEvent none]).commander = some "A" ∧
     getInt? (acceptEvent none).raw_data "MissionID" = none ∧
     getInt? (completeEvent none).raw_data "MissionID" = none) ∧
    (processEvent (processEvents {} [lgEvent "A" "F1" 0, acceptEvent none])
        (acceptEvent none)).active_missions =
      (processEvents {} [lgEvent "A" "F1" 0, acceptEvent none]).active_missions ++
        [{ missionID := none
           name := getStrD (acceptEvent none).raw_data "Name" ""
           faction := getStrD (acceptEvent none).raw_data "Faction" ""
           expiry := getStrD (acceptEvent none).raw_data "Expiry" ""
           destinationSystem := getStrD (acceptEvent none).raw_data "DestinationSystem" ""
           destinationStation := getStrD (acceptEvent none).raw_data "DestinationStation" "" }] ∧
    (processEvent (processEvents {} [lgEvent "A" "F1" 0, acceptEvent none, acceptEvent none])
        (completeEvent none)).active_missions =
      (processEvents {} [lgEvent "A" "F1" 0, acceptEvent none,
          acceptEvent none]).active_missions.filter (fun x => x.missionID ≠ none) ∧
    (processEvents {} [lgEvent "A" "F1" 0, acceptEvent none,
        acceptEvent none]).active_missions.length = 2 ∧
    (processEvents {} [lgEvent "A" "F1" 0, acceptEvent none, acceptEvent none,
        completeEvent none]).active_missions = [] := by
  refine ⟨⟨rfl, rfl, rfl⟩, ?_, ?_, by decide, by decide⟩
  · exact (c10_missing_id (processEvents {} [lgEvent "A" "F1" 0, acceptEvent none])
      (acceptEvent none) "A" rfl (by decide) rfl).1 rfl
  · exact (c10_missing_id
      (processEvents {} [lgEvent "A" "F1" 0, acceptEvent none, acceptEvent none])
      (completeEvent none) "A" rfl (by decide) rfl).2.1 rfl
